import Mathlib

/-!
Verification of the Raft consensus core of the libuavcan distributed
dynamic-node-ID allocation server
(`src/libuavcan/include/uavcan/protocol/dynamic_node_id_server/distributed/raft_core.hpp`).

The state machine `RaftCore` is embedded shallowly: each C++ handler becomes a
Lean function from a `RaftState` (plus the request / response payloads, the
current monotonic time and explicit success flags for every durable storage
write) to a new `RaftState`, together with the optional RPC response and the
list of externally observable events (leader-monitor callbacks, outbound RPC
calls).  Storage-write outcomes are inputs because the storage backend is an
external collaborator: a flag `true` means the durable write succeeded.

The collaborating components `Log`, `PersistentState` and `ClusterManager` are
declared in headers that are not part of the sources under verification; their
operations are modelled from the specification (sections 4.1 - 4.3) and are
marked as such in their doc comments.
-/

/-- Raft server role, from `RaftCore::ServerState`. -/
inductive ServerState where
  | Follower
  | Candidate
  | Leader
deriving DecidableEq, Repr

/-- A Raft log entry: `{ term, node_id, unique_id }`. -/
structure Entry where
  term : Nat
  node_id : Nat
  unique_id : List Nat
deriving DecidableEq, Repr, Inhabited

/-- Per-peer replication bookkeeping held by the cluster manager. -/
structure Peer where
  node_id : Nat
  next_index : Nat
  match_index : Nat
deriving DecidableEq, Repr

/-- Modelled from the spec: ClusterState (section 3) — fixed ordered list of
remote peers plus the configured cluster size. -/
structure Cluster where
  peers : List Peer
  cluster_size : Nat
deriving DecidableEq, Repr

/-- Externally observable effects of a RaftCore operation. -/
inductive Event where
  | LogCommitOnLeader (e : Entry)
  | LeadershipChange (isLeader : Bool)
  | VoteRequestIssued (node_id : Nat)
  | AppendEntriesCallIssued (node_id : Nat)
deriving DecidableEq, Repr

/-- Inbound AppendEntries request payload (with its source node ID). -/
structure AppendEntriesReq where
  src : Nat
  term : Nat
  prev_log_index : Nat
  prev_log_term : Nat
  leader_commit : Nat
  entries : List Entry
deriving DecidableEq, Repr

/-- AppendEntries response payload. -/
structure AEResponse where
  term : Nat
  success : Bool
deriving DecidableEq, Repr

/-- Inbound RequestVote request payload (with its source node ID). -/
structure RequestVoteReq where
  src : Nat
  term : Nat
  last_log_index : Nat
  last_log_term : Nat
deriving DecidableEq, Repr

/-- RequestVote response payload. -/
structure RVResponse where
  term : Nat
  vote_granted : Bool
deriving DecidableEq, Repr

/-- Result delivered to the AppendEntries response callback.
`transportOk` is `ServiceCallResult::isSuccessful()`. -/
structure AEResult where
  transportOk : Bool
  server_node_id : Nat
  term : Nat
  success : Bool
deriving DecidableEq, Repr

/-- Result delivered to the RequestVote response callback. -/
structure RVResult where
  transportOk : Bool
  server_node_id : Nat
  term : Nat
  vote_granted : Bool
deriving DecidableEq, Repr

/-- The full state of one `RaftCore` instance: the persistent state
(`current_term`, `voted_for`, the log, head at index 0), the cluster manager
table, and the volatile fields of the core. -/
structure RaftState where
  current_term : Nat
  voted_for : Option Nat
  log : List Entry
  cluster : Cluster
  commit_index : Nat
  last_activity_timestamp : Nat
  active_mode : Bool
  server_state : ServerState
  next_server_index : Nat
  num_votes_received : Nat
  pending_prev_log_index : Nat
  pending_num_entries : Nat
  pending_ae_calls : Bool
  pending_rv_calls : Nat
deriving DecidableEq, Repr

/-- `Log::getLastIndex()`: the log is indexed `0 .. lastIndex`. -/
def getLastIndex (log : List Entry) : Nat := log.length - 1

/-- `Log::getEntryAtIndex(i)`: `none` when `i` is past the last index. -/
def getEntryAtIndex (log : List Entry) (i : Nat) : Option Entry := log.get? i

/-- Term of the last log entry (term of the sentinel, 0, for a degenerate
empty log). -/
def getLastEntryTerm (log : List Entry) : Nat :=
  ((getEntryAtIndex log (getLastIndex log)).getD default).term

/-- Modelled from the spec: `Log::removeEntriesWhereIndexGreaterOrEqual(i)`
(section 4.1) — truncates the log to `0 .. i-1`; fails when `i = 0` (the
sentinel is immutable) or when the durable write fails (`ok = false`).
On failure the in-memory log is unchanged. -/
def removeEntriesWhereIndexGreaterOrEqual (log : List Entry) (i : Nat) (ok : Bool) :
    Option (List Entry) :=
  if i ≠ 0 ∧ ok = true then some (log.take i) else none

/-- Modelled from the spec: `Log::removeEntriesWhereIndexGreater(i)`
(section 4.1) — truncates the log to `0 ..= i`; fails when the durable write
fails. -/
def removeEntriesWhereIndexGreater (log : List Entry) (i : Nat) (ok : Bool) :
    Option (List Entry) :=
  if ok = true then some (log.take (i + 1)) else none

/-- Modelled from the spec: `Log::append(e)` (section 4.1) — appends iff the
entry term is not below the last entry's term and the capacity is not
exceeded and the durable write succeeds. -/
def logAppend (cap : Nat) (log : List Entry) (e : Entry) (ok : Bool) :
    Option (List Entry) :=
  if ok = true ∧ getLastEntryTerm log ≤ e.term ∧ log.length < cap
  then some (log ++ [e]) else none

/-- Modelled from the spec: `Log::isOtherLogUpToDate(idx, term)`
(section 4.1). -/
def isOtherLogUpToDate (log : List Entry) (otherLastIndex otherLastTerm : Nat) : Bool :=
  decide (getLastEntryTerm log < otherLastTerm) ||
    (decide (otherLastTerm = getLastEntryTerm log) &&
     decide (getLastIndex log ≤ otherLastIndex))

/-- Modelled from the spec: `ClusterManager::getQuorumSize()` (section 3):
`cluster_size / 2 + 1`. -/
def quorumSize (c : Cluster) : Nat := c.cluster_size / 2 + 1

/-- Modelled from the spec: `ClusterManager::isClusterDiscovered()`
(section 4.3): all `cluster_size - 1` remote peers are known. -/
def isClusterDiscovered (c : Cluster) : Bool :=
  decide (c.peers.length = c.cluster_size - 1)

/-- Modelled from the spec: `ClusterManager::isKnownServer(id)` (section 4.3). -/
def isKnownServer (c : Cluster) (id : Nat) : Bool :=
  c.peers.any (fun p => p.node_id == id)

/-- Modelled from the spec: `ClusterManager::resetAllServerIndices()`
(section 4.3): for every peer, `next_index = last_index + 1`,
`match_index = 0`. -/
def resetAllServerIndices (c : Cluster) (lastIdx : Nat) : Cluster :=
  { c with peers := c.peers.map (fun p =>
      { p with next_index := lastIdx + 1, match_index := 0 }) }

/-- Modelled from the spec: `ClusterManager::incrementServerNextIndexBy`
(section 4.3). -/
def incrementServerNextIndexBy (c : Cluster) (id n : Nat) : Cluster :=
  { c with peers := c.peers.map (fun p =>
      if p.node_id = id then { p with next_index := p.next_index + n } else p) }

/-- Modelled from the spec: `ClusterManager::decrementServerNextIndex`
(section 4.3), saturating at 1. -/
def decrementServerNextIndex (c : Cluster) (id : Nat) : Cluster :=
  { c with peers := c.peers.map (fun p =>
      if p.node_id = id
      then { p with next_index := if 1 < p.next_index then p.next_index - 1 else 1 }
      else p) }

/-- Modelled from the spec: `ClusterManager::setServerMatchIndex` (section 4.3). -/
def setServerMatchIndex (c : Cluster) (id i : Nat) : Cluster :=
  { c with peers := c.peers.map (fun p =>
      if p.node_id = id then { p with match_index := i } else p) }

/-- `RaftCore::setActiveMode` (the trace call is not modelled). -/
def setActiveMode (s : RaftState) (b : Bool) : RaftState := { s with active_mode := b }

/-- `RaftCore::registerActivity()`. -/
def registerActivity (s : RaftState) (now : Nat) : RaftState :=
  { s with last_activity_timestamp := now }

/-- `RaftCore::switchState`: no-op when the role is unchanged; otherwise
resets all per-peer indices, the round-robin cursor, the vote tally, cancels
all pending client calls, and notifies the leader monitor when Leader is
entered or left. -/
def switchState (s : RaftState) (new : ServerState) : RaftState × List Event :=
  if s.server_state = new then (s, [])
  else
    let old := s.server_state
    let s2 : RaftState :=
      { s with server_state := new,
               cluster := resetAllServerIndices s.cluster (getLastIndex s.log),
               next_server_index := 0,
               num_votes_received := 0,
               pending_rv_calls := 0,
               pending_ae_calls := false }
    if old = ServerState.Leader ∨ new = ServerState.Leader then
      (s2, [Event.LeadershipChange (decide (new = ServerState.Leader))])
    else (s2, [])

/-- `RaftCore::handlePersistentStateUpdateError`: fall back to a passive
Follower and defer reelections. -/
def handlePersistentStateUpdateError (s : RaftState) (now : Nat) : RaftState × List Event :=
  let p := switchState s ServerState.Follower
  (registerActivity (setActiveMode p.1 false) now, p.2)

/-- `RaftCore::updateFollower`: campaign when active and the activity timeout
elapsed.  Whether the timeout elapsed is an input (it depends on the clock). -/
def updateFollower (s : RaftState) (timedOut : Bool) (now : Nat) : RaftState × List Event :=
  if s.active_mode = true ∧ timedOut = true then
    let p := switchState s ServerState.Candidate
    (registerActivity p.1 now, p.2)
  else (s, [])

/-- `RaftCore::updateCandidate`: tally a finished campaign, or initiate a new
one (durably vote for self, durably advance the term, then fan out
RequestVote calls to every known peer). -/
def updateCandidate (s : RaftState) (self : Nat) (okSetVotedFor okSetCurrentTerm : Bool)
    (now : Nat) : RaftState × List Event :=
  if 0 < s.num_votes_received then
    switchState s
      (if quorumSize s.cluster ≤ s.num_votes_received
       then ServerState.Leader else ServerState.Follower)
  else
    if okSetVotedFor = false then handlePersistentStateUpdateError s now
    else
      let s1 := { s with voted_for := some self }
      if okSetCurrentTerm = false then handlePersistentStateUpdateError s1 now
      else
        let s2 := { s1 with current_term := s1.current_term + 1 }
        let s3 := { s2 with num_votes_received := 1,
                            pending_rv_calls := s2.cluster.peers.length }
        (s3, s3.cluster.peers.map (fun p => Event.VoteRequestIssued p.node_id))

/-- `RaftCore::propagateCommitIndex`: when all local entries are committed,
decide whether it is safe to go passive; otherwise count replicas of the next
uncommitted entry and advance `commit_index` by one on quorum, notifying the
leader monitor.  The source's early-exit scan over the peers is equivalent to
the conjunction over all peers used here. -/
def propagateCommitIndex (s : RaftState) : RaftState × List Event :=
  if s.commit_index = getLastIndex s.log then
    let allDone :=
      (s.cluster.peers.all
        (fun p => decide (p.match_index = s.commit_index) &&
                  decide (s.commit_index < p.next_index))) &&
      isClusterDiscovered s.cluster
    (setActiveMode s (!allDone), [])
  else
    let s1 := setActiveMode s true
    let cnt := 1 + (s1.cluster.peers.filter
      (fun p => decide (s1.commit_index < p.match_index))).length
    if quorumSize s1.cluster ≤ cnt then
      let s2 := { s1 with commit_index := s1.commit_index + 1 }
      (s2, [Event.LogCommitOnLeader ((getEntryAtIndex s2.log s2.commit_index).getD default)])
    else (s1, [])

/-- `RaftCore::updateLeader`: drop heartbeats for a singleton cluster, cancel
pending AppendEntries calls, issue the next round-robin AppendEntries when
active (or mid-sweep), then propagate the commit index.  `cap` is the
capacity of the request's entry array.  The source asserts that the peer at
the cursor is valid; the model skips the send when it is not. -/
def updateLeader (s : RaftState) (cap : Nat) (now : Nat) : RaftState × List Event :=
  let s1 := if s.cluster.cluster_size = 1 then setActiveMode s false else s
  let s2 := { s1 with pending_ae_calls := false }
  if s2.active_mode = true ∨ 0 < s2.next_server_index then
    match s2.cluster.peers.get? s2.next_server_index with
    | none => propagateCommitIndex s2
    | some p =>
      let nsi := s2.next_server_index + 1
      let s3 := { s2 with next_server_index :=
                    if s2.cluster.peers.length ≤ nsi then 0 else nsi }
      let prevIdx := p.next_index - 1
      match getEntryAtIndex s3.log prevIdx with
      | none => handlePersistentStateUpdateError s3 now
      | some _ =>
        let cnt := min (getLastIndex s3.log + 1 - p.next_index) cap
        let s4 := { s3 with pending_prev_log_index := prevIdx,
                            pending_num_entries := cnt,
                            pending_ae_calls := true }
        let q := propagateCommitIndex s4
        (q.1, Event.AppendEntriesCallIssued p.node_id :: q.2)
  else propagateCommitIndex s2

/-- The entry-append loop of step 4 of the AppendEntries handler: appends the
request's entries one at a time, keeping the successfully appended ones; the
flag records whether all of them succeeded. -/
def appendAllEntries (cap : Nat) (log : List Entry) (es : List Entry) (ok : Nat → Bool)
    (k : Nat) : List Entry × Bool :=
  match es with
  | [] => (log, true)
  | e :: rest =>
    match logAppend cap log e (ok k) with
    | none => (log, false)
    | some log2 => appendAllEntries cap log2 rest ok (k + 1)

/-- The tail of step 4 and step 5 of the AppendEntries handler: append the
request's entries onto `log3` (the log after any truncation), then raise
`commit_index` towards `leader_commit`, bounded by the new last index. -/
def aeSteps45 (s3 : RaftState) (respTerm : Nat) (req : AppendEntriesReq) (cap : Nat)
    (okAppend : Nat → Bool) (ev : List Event) (log3 : List Entry) :
    RaftState × Option AEResponse × List Event :=
  let q := appendAllEntries cap log3 req.entries okAppend 0
  let s4 := { s3 with log := q.1 }
  if q.2 = false then (s4, none, ev)
  else
    let s5 :=
      if s4.commit_index < req.leader_commit then
        { s4 with commit_index := min req.leader_commit (getLastIndex s4.log) }
      else s4
    (s5, some ⟨respTerm, true⟩, ev)

/-- Steps 2-5 of `RaftCore::handleAppendEntriesRequest`, acting on the state
`s3` reached after registering activity, switching to Follower and going
passive.  `respTerm` is the term captured into the response beforehand and
`ev` the events emitted by the role switch. -/
def aeSteps2to5 (s3 : RaftState) (respTerm : Nat) (req : AppendEntriesReq) (cap : Nat)
    (okTruncGE okTruncGT : Bool) (okAppend : Nat → Bool) (ev : List Event) :
    RaftState × Option AEResponse × List Event :=
  match getEntryAtIndex s3.log req.prev_log_index with
  | none => (s3, some ⟨respTerm, false⟩, ev)
  | some prevEntry =>
    if prevEntry.term ≠ req.prev_log_term then
      match removeEntriesWhereIndexGreaterOrEqual s3.log req.prev_log_index okTruncGE with
      | some log2 => ({ s3 with log := log2 }, some ⟨respTerm, false⟩, ev)
      | none => (s3, none, ev)
    else
      if req.prev_log_index ≠ getLastIndex s3.log then
        match removeEntriesWhereIndexGreater s3.log req.prev_log_index okTruncGT with
        | none => (s3, none, ev)
        | some log3 => aeSteps45 s3 respTerm req cap okAppend ev log3
      else aeSteps45 s3 respTerm req cap okAppend ev s3.log

/-- The body of `RaftCore::handleAppendEntriesRequest` after the
higher-term adoption step (steps 1-5 of the handler). -/
def aeAfterTermCheck (s : RaftState) (req : AppendEntriesReq) (cap : Nat)
    (okTruncGE okTruncGT : Bool) (okAppend : Nat → Bool) (now : Nat) :
    RaftState × Option AEResponse × List Event :=
  let respTerm := s.current_term
  if req.term < s.current_term then (s, some ⟨respTerm, false⟩, [])
  else
    let s1 := registerActivity s now
    let p := switchState s1 ServerState.Follower
    aeSteps2to5 (setActiveMode p.1 false) respTerm req cap okTruncGE okTruncGT okAppend p.2

/-- `RaftCore::handleAppendEntriesRequest`: drop requests from unknown peers,
adopt a strictly higher term (clearing the vote), then run steps 1-5.
The response component is `none` when the response is suppressed. -/
def handleAppendEntriesRequest (s : RaftState) (req : AppendEntriesReq) (cap : Nat)
    (okSetTerm okResetVotedFor okTruncGE okTruncGT : Bool) (okAppend : Nat → Bool)
    (now : Nat) : RaftState × Option AEResponse × List Event :=
  if isKnownServer s.cluster req.src = false then (s, none, [])
  else if s.current_term < req.term then
    if okSetTerm = false then
      let p := handlePersistentStateUpdateError s now
      (p.1, none, p.2)
    else
      let s1 := { s with current_term := req.term }
      if okResetVotedFor = false then
        let p := handlePersistentStateUpdateError s1 now
        (p.1, none, p.2)
      else aeAfterTermCheck { s1 with voted_for := none } req cap okTruncGE okTruncGT okAppend now
  else aeAfterTermCheck s req cap okTruncGE okTruncGT okAppend now

/-- The body of `RaftCore::handleRequestVoteRequest` after the higher-term
adoption step: grant the vote iff no conflicting vote was cast this term and
the candidate's log is up to date. -/
def rvAfterTermCheck (s : RaftState) (req : RequestVoteReq) (okSetVotedFor : Bool)
    (now : Nat) : RaftState × Option RVResponse × List Event :=
  let respTerm := s.current_term
  if req.term < respTerm then (s, some ⟨respTerm, false⟩, [])
  else
    let canVote := s.voted_for = none ∨ s.voted_for = some req.src
    let upToDate := isOtherLogUpToDate s.log req.last_log_index req.last_log_term = true
    if canVote ∧ upToDate then
      let p := switchState s ServerState.Follower
      let s2 := registerActivity p.1 now
      if okSetVotedFor = false then (s2, none, p.2)
      else ({ s2 with voted_for := some req.src }, some ⟨respTerm, true⟩, p.2)
    else (s, some ⟨respTerm, false⟩, [])

/-- `RaftCore::handleRequestVoteRequest`: drop requests from unknown peers,
go active, adopt a strictly higher term (switching to Follower and clearing
the vote), then decide the vote. -/
def handleRequestVoteRequest (s : RaftState) (req : RequestVoteReq)
    (okSetTerm okResetVotedFor okSetVotedFor : Bool) (now : Nat) :
    RaftState × Option RVResponse × List Event :=
  if isKnownServer s.cluster req.src = false then (s, none, [])
  else
    let sA := setActiveMode s true
    if sA.current_term < req.term then
      let p1 := switchState sA ServerState.Follower
      if okSetTerm = false then
        let p2 := handlePersistentStateUpdateError p1.1 now
        (p2.1, none, p1.2 ++ p2.2)
      else
        let s2 := { p1.1 with current_term := req.term }
        if okResetVotedFor = false then
          let p2 := handlePersistentStateUpdateError s2 now
          (p2.1, none, p1.2 ++ p2.2)
        else
          let r := rvAfterTermCheck { s2 with voted_for := none } req okSetVotedFor now
          (r.1, r.2.1, p1.2 ++ r.2.2)
    else rvAfterTermCheck sA req okSetVotedFor now

/-- `RaftCore::tryIncrementCurrentTermFromResponse`: adopt a newer term seen
in a response (a failed term write is only traced), defer elections, become a
passive Follower. -/
def tryIncrementCurrentTermFromResponse (s : RaftState) (newTerm : Nat)
    (okSetTerm : Bool) (now : Nat) : RaftState × List Event :=
  let s1 := if okSetTerm = true then { s with current_term := newTerm } else s
  let s2 := registerActivity s1 now
  let p := switchState s2 ServerState.Follower
  (setActiveMode p.1 false, p.2)

/-- `RaftCore::handleAppendEntriesResponse`: on success advance the peer's
`next_index`/`match_index` from the pending-call bookkeeping, on NACK step
`next_index` back, on a newer term adopt it; always clear the pending-call
bookkeeping.  A transport failure only hits an assertion in the source. -/
def handleAppendEntriesResponse (s : RaftState) (r : AEResult) (okSetTerm : Bool)
    (now : Nat) : RaftState × List Event :=
  if r.transportOk = false then (s, [])
  else
    let p :=
      if s.current_term < r.term then
        tryIncrementCurrentTermFromResponse s r.term okSetTerm now
      else if r.success = true then
        let c2 := incrementServerNextIndexBy s.cluster r.server_node_id s.pending_num_entries
        let c3 := setServerMatchIndex c2 r.server_node_id
                    (s.pending_prev_log_index + s.pending_num_entries)
        ({ s with cluster := c3 }, [])
      else ({ s with cluster := decrementServerNextIndex s.cluster r.server_node_id }, [])
    ({ p.1 with pending_prev_log_index := 0, pending_num_entries := 0 }, p.2)

/-- `RaftCore::handleRequestVoteResponse`: adopt a newer term, otherwise
tally a granted vote.  A transport failure only hits an assertion. -/
def handleRequestVoteResponse (s : RaftState) (r : RVResult) (okSetTerm : Bool)
    (now : Nat) : RaftState × List Event :=
  if r.transportOk = false then (s, [])
  else if s.current_term < r.term then
    tryIncrementCurrentTermFromResponse s r.term okSetTerm now
  else if r.vote_granted = true then
    ({ s with num_votes_received := s.num_votes_received + 1 }, [])
  else (s, [])

/-- `RaftCore::handleTimerEvent`: go active on discovery activity while
Leader, then dispatch on the role. -/
def handleTimerEvent (s : RaftState) (hadDiscoveryActivity timedOut : Bool)
    (self cap : Nat) (okSetVotedFor okSetCurrentTerm : Bool) (now : Nat) :
    RaftState × List Event :=
  let s1 := if hadDiscoveryActivity = true ∧ s.server_state = ServerState.Leader
            then setActiveMode s true else s
  match s1.server_state with
  | ServerState.Follower => updateFollower s1 timedOut now
  | ServerState.Candidate => updateCandidate s1 self okSetVotedFor okSetCurrentTerm now
  | ServerState.Leader => updateLeader s1 cap now

/-- `RaftCore::appendLog`: only the Leader appends; a failed append triggers
persistent-state error recovery; a non-Leader call only hits an assertion. -/
def appendLog (s : RaftState) (uniqueId : List Nat) (nodeId cap : Nat)
    (okAppend : Bool) (now : Nat) : RaftState × List Event :=
  if s.server_state = ServerState.Leader then
    let e : Entry := { term := s.current_term, node_id := nodeId, unique_id := uniqueId }
    match logAppend cap s.log e okAppend with
    | some log2 => ({ s with log := log2 }, [])
    | none => handlePersistentStateUpdateError s now
  else (s, [])

/-- One operation of `RaftCore`: a timer tick, an inbound request, a response
callback, or an allocator-driven append.  Each carries the external inputs it
consumes, including the outcome of every durable write it may perform. -/
inductive Op where
  | tick (hadDiscoveryActivity timedOut : Bool) (self cap : Nat)
         (okSetVotedFor okSetCurrentTerm : Bool) (now : Nat)
  | aeRequest (req : AppendEntriesReq) (cap : Nat)
              (okSetTerm okResetVotedFor okTruncGE okTruncGT : Bool)
              (okAppend : Nat → Bool) (now : Nat)
  | rvRequest (req : RequestVoteReq) (okSetTerm okResetVotedFor okSetVotedFor : Bool)
              (now : Nat)
  | aeResponse (r : AEResult) (okSetTerm : Bool) (now : Nat)
  | rvResponse (r : RVResult) (okSetTerm : Bool) (now : Nat)
  | append (uniqueId : List Nat) (nodeId cap : Nat) (okAppend : Bool) (now : Nat)

/-- The state reached by one operation of `RaftCore`. -/
def step (s : RaftState) : Op → RaftState
  | Op.tick hd tmo self cap ov ot now => (handleTimerEvent s hd tmo self cap ov ot now).1
  | Op.aeRequest req cap a b c d oa now =>
      (handleAppendEntriesRequest s req cap a b c d oa now).1
  | Op.rvRequest req a b c now => (handleRequestVoteRequest s req a b c now).1
  | Op.aeResponse r a now => (handleAppendEntriesResponse s r a now).1
  | Op.rvResponse r a now => (handleRequestVoteResponse s r a now).1
  | Op.append uid nid cap ok now => (appendLog s uid nid cap ok now).1

/-- The no-conflict side condition on inbound AppendEntries requests used by
the amended claim C1: the request must not truncate locally committed
entries.  For every other kind of operation the condition is trivial.  In a
conforming cluster this condition is guaranteed by the Raft election
restriction (committed entries never conflict with the leader's log). -/
def aeSafe (s : RaftState) : Op → Prop
  | Op.aeRequest req _ _ _ _ _ _ _ =>
      ∀ e, getEntryAtIndex s.log req.prev_log_index = some e →
        if e.term = req.prev_log_term then s.commit_index ≤ req.prev_log_index
        else req.prev_log_index = 0 ∨ s.commit_index < req.prev_log_index
  | _ => True

/-- A sentinel log entry (index 0, term 0). -/
def sentinelEntry : Entry := { term := 0, node_id := 0, unique_id := [] }

/-- Concrete Leader state used to witness claim C1: two known peers, one of
which has replicated entry 1, commit index 0 with one uncommitted entry. -/
def c1wS : RaftState :=
  { current_term := 1, voted_for := some 1,
    log := [sentinelEntry, { term := 1, node_id := 10, unique_id := [1] }],
    cluster := { peers := [{ node_id := 2, next_index := 2, match_index := 1 },
                           { node_id := 3, next_index := 1, match_index := 0 }],
                 cluster_size := 3 },
    commit_index := 0, last_activity_timestamp := 0, active_mode := true,
    server_state := ServerState.Leader, next_server_index := 0,
    num_votes_received := 0, pending_prev_log_index := 0, pending_num_entries := 0,
    pending_ae_calls := false, pending_rv_calls := 0 }

/-- A Leader tick operation used to witness claim C1. -/
def c1wOp : Op := Op.tick false false 1 8 true true 3

/-- Concrete Follower state used in the counterexample to claim C1 as
stated: the log holds the sentinel plus two entries of term 1, both of which
have been marked committed (`commit_index = 2`). -/
def c1cexS : RaftState :=
  { current_term := 1, voted_for := none,
    log := [sentinelEntry, { term := 1, node_id := 10, unique_id := [1] },
            { term := 1, node_id := 11, unique_id := [2] }],
    cluster := { peers := [{ node_id := 2, next_index := 3, match_index := 0 },
                           { node_id := 3, next_index := 3, match_index := 0 }],
                 cluster_size := 3 },
    commit_index := 2, last_activity_timestamp := 0, active_mode := true,
    server_state := ServerState.Follower, next_server_index := 0,
    num_votes_received := 0, pending_prev_log_index := 0, pending_num_entries := 0,
    pending_ae_calls := false, pending_rv_calls := 0 }

/-- An inbound AppendEntries request, from the known peer 2 at the same term,
whose `prev_log_term` conflicts with the committed entry at index 1; handling
it truncates the log below the commit index. -/
def c1cexOp : Op :=
  Op.aeRequest
    { src := 2, term := 1, prev_log_index := 1, prev_log_term := 2,
      leader_commit := 0, entries := [] }
    8 true true true true (fun _ => true) 5

/-- The operation shapes on which `voted_for` legitimately survives a term
advance: an inbound handler whose `resetVotedFor` write failed, or a response
callback adopting a newer term (which never touches `voted_for`). -/
def votedForRetained : Op → Prop
  | Op.aeRequest _ _ _ okResetVotedFor _ _ _ _ => okResetVotedFor = false
  | Op.rvRequest _ _ okResetVotedFor _ _ => okResetVotedFor = false
  | Op.aeResponse _ _ _ => True
  | Op.rvResponse _ _ _ => True
  | _ => False

/-- Concrete Candidate state (campaign not yet armed) used for claim C2:
ticking it initiates a campaign, durably voting for self and advancing the
term. -/
def c2S : RaftState :=
  { current_term := 1, voted_for := none,
    log := [sentinelEntry],
    cluster := { peers := [{ node_id := 2, next_index := 1, match_index := 0 },
                           { node_id := 3, next_index := 1, match_index := 0 }],
                 cluster_size := 3 },
    commit_index := 0, last_activity_timestamp := 0, active_mode := true,
    server_state := ServerState.Candidate, next_server_index := 0,
    num_votes_received := 0, pending_prev_log_index := 0, pending_num_entries := 0,
    pending_ae_calls := false, pending_rv_calls := 0 }

/-- A Candidate tick (campaign initiation, both durable writes succeed) for
node 1, used for claim C2. -/
def c2Op : Op := Op.tick false false 1 8 true true 7

/-- Concrete Leader state for claim C3: one uncommitted local entry, peer 2
has replicated it (`match_index = 1 > commit_index = 0`), peer 3 has not. -/
def c3S : RaftState :=
  { current_term := 1, voted_for := some 1,
    log := [sentinelEntry, { term := 1, node_id := 10, unique_id := [1] }],
    cluster := { peers := [{ node_id := 2, next_index := 2, match_index := 1 },
                           { node_id := 3, next_index := 1, match_index := 0 }],
                 cluster_size := 3 },
    commit_index := 0, last_activity_timestamp := 0, active_mode := true,
    server_state := ServerState.Leader, next_server_index := 0,
    num_votes_received := 0, pending_prev_log_index := 0, pending_num_entries := 0,
    pending_ae_calls := false, pending_rv_calls := 0 }

/-- Concrete Leader state for claim C4: everything committed and replicated
(`match_index = commit_index = 1`, `next_index = 2` on both peers), cluster
fully discovered. -/
def c4S : RaftState :=
  { current_term := 1, voted_for := some 1,
    log := [sentinelEntry, { term := 1, node_id := 10, unique_id := [1] }],
    cluster := { peers := [{ node_id := 2, next_index := 2, match_index := 1 },
                           { node_id := 3, next_index := 2, match_index := 1 }],
                 cluster_size := 3 },
    commit_index := 1, last_activity_timestamp := 0, active_mode := true,
    server_state := ServerState.Leader, next_server_index := 0,
    num_votes_received := 0, pending_prev_log_index := 0, pending_num_entries := 0,
    pending_ae_calls := false, pending_rv_calls := 0 }

/-- Concrete Follower state for claim C5 (spec scenario 3): log holds the
sentinel and one entry of term 5. -/
def c5S : RaftState :=
  { current_term := 5, voted_for := none,
    log := [sentinelEntry, { term := 5, node_id := 10, unique_id := [1] }],
    cluster := { peers := [{ node_id := 2, next_index := 1, match_index := 0 },
                           { node_id := 3, next_index := 1, match_index := 0 }],
                 cluster_size := 3 },
    commit_index := 0, last_activity_timestamp := 0, active_mode := true,
    server_state := ServerState.Follower, next_server_index := 0,
    num_votes_received := 0, pending_prev_log_index := 0, pending_num_entries := 0,
    pending_ae_calls := false, pending_rv_calls := 0 }

/-- A conflicting AppendEntries request for claim C5: the new leader's
`prev_log_term = 6` differs from the term 5 stored at index 1. -/
def c5Req : AppendEntriesReq :=
  { src := 2, term := 6, prev_log_index := 1, prev_log_term := 6,
    leader_commit := 0, entries := [] }

/-- The conflicting local entry at index 1 for claim C5. -/
def c5E : Entry := { term := 5, node_id := 10, unique_id := [1] }

/-- Concrete Follower state for claim C6 (stale-term AppendEntries). -/
def c6S : RaftState :=
  { current_term := 4, voted_for := some 3,
    log := [sentinelEntry, { term := 2, node_id := 10, unique_id := [1] }],
    cluster := { peers := [{ node_id := 2, next_index := 1, match_index := 0 },
                           { node_id := 3, next_index := 1, match_index := 0 }],
                 cluster_size := 3 },
    commit_index := 1, last_activity_timestamp := 9, active_mode := false,
    server_state := ServerState.Follower, next_server_index := 0,
    num_votes_received := 0, pending_prev_log_index := 0, pending_num_entries := 0,
    pending_ae_calls := false, pending_rv_calls := 0 }

/-- A stale AppendEntries request for claim C6: term 3 < current term 4. -/
def c6Req : AppendEntriesReq :=
  { src := 2, term := 3, prev_log_index := 1, prev_log_term := 2,
    leader_commit := 1, entries := [] }

/-- Concrete Follower state for claim C7: no vote cast this term, log is the
sentinel plus one entry of term 1. -/
def c7S : RaftState :=
  { current_term := 2, voted_for := none,
    log := [sentinelEntry, { term := 1, node_id := 10, unique_id := [1] }],
    cluster := { peers := [{ node_id := 2, next_index := 1, match_index := 0 },
                           { node_id := 3, next_index := 1, match_index := 0 }],
                 cluster_size := 3 },
    commit_index := 1, last_activity_timestamp := 0, active_mode := false,
    server_state := ServerState.Follower, next_server_index := 0,
    num_votes_received := 0, pending_prev_log_index := 0, pending_num_entries := 0,
    pending_ae_calls := false, pending_rv_calls := 0 }

/-- A RequestVote request for claim C7 from known peer 2 at the same term
with an up-to-date log. -/
def c7Req : RequestVoteReq :=
  { src := 2, term := 2, last_log_index := 1, last_log_term := 1 }

/-- Concrete Candidate state for claim C8: campaign armed, 2 votes received
(quorum for a 3-node cluster). -/
def c8S : RaftState :=
  { current_term := 3, voted_for := some 1,
    log := [sentinelEntry],
    cluster := { peers := [{ node_id := 2, next_index := 1, match_index := 0 },
                           { node_id := 3, next_index := 1, match_index := 0 }],
                 cluster_size := 3 },
    commit_index := 0, last_activity_timestamp := 0, active_mode := true,
    server_state := ServerState.Candidate, next_server_index := 0,
    num_votes_received := 2, pending_prev_log_index := 0, pending_num_entries := 0,
    pending_ae_calls := false, pending_rv_calls := 2 }

/-- Concrete Follower state for claim C9 (appendLog called off-Leader). -/
def c9S : RaftState :=
  { current_term := 2, voted_for := some 3,
    log := [sentinelEntry, { term := 1, node_id := 10, unique_id := [1] }],
    cluster := { peers := [{ node_id := 2, next_index := 2, match_index := 1 },
                           { node_id := 3, next_index := 2, match_index := 1 }],
                 cluster_size := 3 },
    commit_index := 1, last_activity_timestamp := 4, active_mode := true,
    server_state := ServerState.Follower, next_server_index := 0,
    num_votes_received := 0, pending_prev_log_index := 0, pending_num_entries := 0,
    pending_ae_calls := false, pending_rv_calls := 0 }

/-! ## Frame lemmas for the state-machine helpers -/

theorem switchState_fst_current_term (s : RaftState) (st : ServerState) :
    (switchState s st).1.current_term = s.current_term := by
  simp only [switchState]
  split
  · rfl
  · split <;> rfl

theorem switchState_fst_voted_for (s : RaftState) (st : ServerState) :
    (switchState s st).1.voted_for = s.voted_for := by
  simp only [switchState]
  split
  · rfl
  · split <;> rfl

theorem switchState_fst_log (s : RaftState) (st : ServerState) :
    (switchState s st).1.log = s.log := by
  simp only [switchState]
  split
  · rfl
  · split <;> rfl

theorem switchState_fst_commit_index (s : RaftState) (st : ServerState) :
    (switchState s st).1.commit_index = s.commit_index := by
  simp only [switchState]
  split
  · rfl
  · split <;> rfl

theorem switchState_fst_active_mode (s : RaftState) (st : ServerState) :
    (switchState s st).1.active_mode = s.active_mode := by
  simp only [switchState]
  split
  · rfl
  · split <;> rfl

theorem switchState_fst_last_activity (s : RaftState) (st : ServerState) :
    (switchState s st).1.last_activity_timestamp = s.last_activity_timestamp := by
  simp only [switchState]
  split
  · rfl
  · split <;> rfl

theorem switchState_fst_server_state (s : RaftState) (st : ServerState) :
    (switchState s st).1.server_state = st := by
  simp only [switchState]
  split
  · next h => exact h
  · split <;> rfl

theorem handleError_fst_current_term (s : RaftState) (now : Nat) :
    (handlePersistentStateUpdateError s now).1.current_term = s.current_term := by
  simp only [handlePersistentStateUpdateError, registerActivity, setActiveMode]
  exact switchState_fst_current_term s ServerState.Follower

theorem handleError_fst_voted_for (s : RaftState) (now : Nat) :
    (handlePersistentStateUpdateError s now).1.voted_for = s.voted_for := by
  simp only [handlePersistentStateUpdateError, registerActivity, setActiveMode]
  exact switchState_fst_voted_for s ServerState.Follower

theorem handleError_fst_log (s : RaftState) (now : Nat) :
    (handlePersistentStateUpdateError s now).1.log = s.log := by
  simp only [handlePersistentStateUpdateError, registerActivity, setActiveMode]
  exact switchState_fst_log s ServerState.Follower

theorem handleError_fst_commit_index (s : RaftState) (now : Nat) :
    (handlePersistentStateUpdateError s now).1.commit_index = s.commit_index := by
  simp only [handlePersistentStateUpdateError, registerActivity, setActiveMode]
  exact switchState_fst_commit_index s ServerState.Follower

theorem handleError_fst_server_state (s : RaftState) (now : Nat) :
    (handlePersistentStateUpdateError s now).1.server_state = ServerState.Follower := by
  simp only [handlePersistentStateUpdateError, registerActivity, setActiveMode]
  exact switchState_fst_server_state s ServerState.Follower

theorem handleError_fst_active_mode (s : RaftState) (now : Nat) :
    (handlePersistentStateUpdateError s now).1.active_mode = false := by
  simp only [handlePersistentStateUpdateError, registerActivity, setActiveMode]

theorem handleError_fst_last_activity (s : RaftState) (now : Nat) :
    (handlePersistentStateUpdateError s now).1.last_activity_timestamp = now := by
  simp only [handlePersistentStateUpdateError, registerActivity, setActiveMode]

theorem tryIncrement_fst_voted_for (s : RaftState) (t : Nat) (ok : Bool) (now : Nat) :
    (tryIncrementCurrentTermFromResponse s t ok now).1.voted_for = s.voted_for := by
  simp only [tryIncrementCurrentTermFromResponse, registerActivity, setActiveMode]
  split <;> rw [switchState_fst_voted_for]

theorem tryIncrement_fst_log (s : RaftState) (t : Nat) (ok : Bool) (now : Nat) :
    (tryIncrementCurrentTermFromResponse s t ok now).1.log = s.log := by
  simp only [tryIncrementCurrentTermFromResponse, registerActivity, setActiveMode]
  split <;> rw [switchState_fst_log]

theorem tryIncrement_fst_commit_index (s : RaftState) (t : Nat) (ok : Bool) (now : Nat) :
    (tryIncrementCurrentTermFromResponse s t ok now).1.commit_index = s.commit_index := by
  simp only [tryIncrementCurrentTermFromResponse, registerActivity, setActiveMode]
  split <;> rw [switchState_fst_commit_index]

theorem updateFollower_fst_current_term (s : RaftState) (tmo : Bool) (now : Nat) :
    (updateFollower s tmo now).1.current_term = s.current_term := by
  simp only [updateFollower, registerActivity]
  split
  · rw [switchState_fst_current_term]
  · rfl

theorem updateFollower_fst_voted_for (s : RaftState) (tmo : Bool) (now : Nat) :
    (updateFollower s tmo now).1.voted_for = s.voted_for := by
  simp only [updateFollower, registerActivity]
  split
  · rw [switchState_fst_voted_for]
  · rfl

theorem updateFollower_fst_log (s : RaftState) (tmo : Bool) (now : Nat) :
    (updateFollower s tmo now).1.log = s.log := by
  simp only [updateFollower, registerActivity]
  split
  · rw [switchState_fst_log]
  · rfl

theorem updateFollower_fst_commit_index (s : RaftState) (tmo : Bool) (now : Nat) :
    (updateFollower s tmo now).1.commit_index = s.commit_index := by
  simp only [updateFollower, registerActivity]
  split
  · rw [switchState_fst_commit_index]
  · rfl

theorem updateCandidate_fst_log (s : RaftState) (self : Nat) (ov ot : Bool) (now : Nat) :
    (updateCandidate s self ov ot now).1.log = s.log := by
  simp only [updateCandidate]
  split
  · rw [switchState_fst_log]
  · split
    · rw [handleError_fst_log]
    · split
      · rw [handleError_fst_log]
      · rfl

theorem updateCandidate_fst_commit_index (s : RaftState) (self : Nat) (ov ot : Bool)
    (now : Nat) :
    (updateCandidate s self ov ot now).1.commit_index = s.commit_index := by
  simp only [updateCandidate]
  split
  · rw [switchState_fst_commit_index]
  · split
    · rw [handleError_fst_commit_index]
    · split
      · rw [handleError_fst_commit_index]
      · rfl

theorem propagate_fst_log (s : RaftState) :
    (propagateCommitIndex s).1.log = s.log := by
  simp only [propagateCommitIndex, setActiveMode]
  split
  · rfl
  · split <;> rfl

theorem propagate_fst_current_term (s : RaftState) :
    (propagateCommitIndex s).1.current_term = s.current_term := by
  simp only [propagateCommitIndex, setActiveMode]
  split
  · rfl
  · split <;> rfl

theorem propagate_fst_voted_for (s : RaftState) :
    (propagateCommitIndex s).1.voted_for = s.voted_for := by
  simp only [propagateCommitIndex, setActiveMode]
  split
  · rfl
  · split <;> rfl

/-- `propagateCommitIndex` never decreases `commit_index` and keeps it within
the log whenever it was within the log before.  The pre-state commit index is
taken as a separate variable `c` so the lemma applies cleanly when the state
argument is a compound expression. -/
theorem propagate_commit_bounds (s : RaftState) (c : Nat) (hc : s.commit_index = c)
    (h : c ≤ getLastIndex s.log) :
    c ≤ (propagateCommitIndex s).1.commit_index ∧
      (propagateCommitIndex s).1.commit_index ≤ getLastIndex (propagateCommitIndex s).1.log := by
  subst hc
  simp only [propagateCommitIndex, setActiveMode] at *
  split
  · next heq => exact ⟨Nat.le_refl _, le_of_eq heq⟩
  · next hne =>
    split
    · constructor
      · exact Nat.le_succ _
      · simp only []
        omega
    · exact ⟨Nat.le_refl _, h⟩

theorem updateLeader_fst_current_term (s : RaftState) (cap now : Nat) :
    (updateLeader s cap now).1.current_term = s.current_term := by
  simp only [updateLeader, setActiveMode]
  repeat' split
  all_goals first
    | rw [propagate_fst_current_term]
    | rw [handleError_fst_current_term]

theorem updateLeader_fst_voted_for (s : RaftState) (cap now : Nat) :
    (updateLeader s cap now).1.voted_for = s.voted_for := by
  simp only [updateLeader, setActiveMode]
  repeat' split
  all_goals first
    | rw [propagate_fst_voted_for]
    | rw [handleError_fst_voted_for]

/-- `updateLeader` never decreases `commit_index` and keeps it within the log. -/
theorem updateLeader_commit_bounds (s : RaftState) (cap now : Nat) (c : Nat)
    (hc : s.commit_index = c) (h : c ≤ getLastIndex s.log) :
    c ≤ (updateLeader s cap now).1.commit_index ∧
      (updateLeader s cap now).1.commit_index ≤ getLastIndex (updateLeader s cap now).1.log := by
  subst hc
  simp only [updateLeader, setActiveMode]
  repeat' split
  all_goals first
    | exact propagate_commit_bounds _ _ rfl h
    | (rw [handleError_fst_commit_index, handleError_fst_log]; exact ⟨Nat.le_refl _, h⟩)

theorem aeResponse_fst_voted_for (s : RaftState) (r : AEResult) (ok : Bool) (now : Nat) :
    (handleAppendEntriesResponse s r ok now).1.voted_for = s.voted_for := by
  simp only [handleAppendEntriesResponse]
  split
  · rfl
  · split
    · rw [tryIncrement_fst_voted_for]
    · split <;> rfl

theorem aeResponse_fst_log (s : RaftState) (r : AEResult) (ok : Bool) (now : Nat) :
    (handleAppendEntriesResponse s r ok now).1.log = s.log := by
  simp only [handleAppendEntriesResponse]
  split
  · rfl
  · split
    · rw [tryIncrement_fst_log]
    · split <;> rfl

theorem aeResponse_fst_commit_index (s : RaftState) (r : AEResult) (ok : Bool) (now : Nat) :
    (handleAppendEntriesResponse s r ok now).1.commit_index = s.commit_index := by
  simp only [handleAppendEntriesResponse]
  split
  · rfl
  · split
    · rw [tryIncrement_fst_commit_index]
    · split <;> rfl

theorem rvResponse_fst_voted_for (s : RaftState) (r : RVResult) (ok : Bool) (now : Nat) :
    (handleRequestVoteResponse s r ok now).1.voted_for = s.voted_for := by
  simp only [handleRequestVoteResponse]
  split
  · rfl
  · split
    · rw [tryIncrement_fst_voted_for]
    · split <;> rfl

theorem rvResponse_fst_log (s : RaftState) (r : RVResult) (ok : Bool) (now : Nat) :
    (handleRequestVoteResponse s r ok now).1.log = s.log := by
  simp only [handleRequestVoteResponse]
  split
  · rfl
  · split
    · rw [tryIncrement_fst_log]
    · split <;> rfl

theorem rvResponse_fst_commit_index (s : RaftState) (r : RVResult) (ok : Bool) (now : Nat) :
    (handleRequestVoteResponse s r ok now).1.commit_index = s.commit_index := by
  simp only [handleRequestVoteResponse]
  split
  · rfl
  · split
    · rw [tryIncrement_fst_commit_index]
    · split <;> rfl

theorem logAppend_some (cap : Nat) (log : List Entry) (e : Entry) (ok : Bool)
    (log2 : List Entry) (h : logAppend cap log e ok = some log2) :
    log2 = log ++ [e] := by
  simp only [logAppend] at h
  split at h
  · exact (Option.some.injEq _ _).mp h.symm |>.symm ▸ rfl
  · cases h

theorem appendLog_fst_current_term (s : RaftState) (uid : List Nat) (nid cap : Nat)
    (ok : Bool) (now : Nat) :
    (appendLog s uid nid cap ok now).1.current_term = s.current_term := by
  simp only [appendLog]
  split
  · split
    · rfl
    · rw [handleError_fst_current_term]
  · rfl

theorem appendLog_fst_voted_for (s : RaftState) (uid : List Nat) (nid cap : Nat)
    (ok : Bool) (now : Nat) :
    (appendLog s uid nid cap ok now).1.voted_for = s.voted_for := by
  simp only [appendLog]
  split
  · split
    · rfl
    · rw [handleError_fst_voted_for]
  · rfl

/-- `appendLog` never decreases `commit_index` and keeps it within the log. -/
theorem appendLog_commit_bounds (s : RaftState) (uid : List Nat) (nid cap : Nat)
    (ok : Bool) (now : Nat) (h : s.commit_index ≤ getLastIndex s.log) :
    s.commit_index ≤ (appendLog s uid nid cap ok now).1.commit_index ∧
      (appendLog s uid nid cap ok now).1.commit_index ≤
        getLastIndex (appendLog s uid nid cap ok now).1.log := by
  have hq := h
  simp only [appendLog]
  split
  · split
    · next log2 hsome =>
      have := logAppend_some _ _ _ _ _ hsome
      subst this
      refine ⟨Nat.le_refl _, ?_⟩
      simp only [getLastIndex, List.length_append, List.length_singleton] at *
      omega
    · rw [handleError_fst_commit_index, handleError_fst_log]
      exact ⟨Nat.le_refl _, h⟩
  · exact ⟨Nat.le_refl _, h⟩


theorem appendAllEntries_length (cap : Nat) (es : List Entry) (ok : Nat → Bool) :
    ∀ (log : List Entry) (k : Nat),
      log.length ≤ (appendAllEntries cap log es ok k).1.length := by
  induction es with
  | nil => intro log k; exact Nat.le_refl _
  | cons e rest ih =>
    intro log k
    simp only [appendAllEntries]
    cases hA : logAppend cap log e (ok k) with
    | none => exact Nat.le_refl _
    | some log2 =>
      have h2 := logAppend_some _ _ _ _ _ hA
      subst h2
      calc log.length ≤ (log ++ [e]).length := by simp
        _ ≤ _ := ih (log ++ [e]) (k + 1)

theorem aeSteps45_fst_current_term (s3 : RaftState) (respTerm : Nat)
    (req : AppendEntriesReq) (cap : Nat) (oa : Nat → Bool) (ev : List Event)
    (log3 : List Entry) :
    (aeSteps45 s3 respTerm req cap oa ev log3).1.current_term = s3.current_term := by
  simp only [aeSteps45]
  repeat' split
  all_goals rfl

theorem aeSteps45_fst_voted_for (s3 : RaftState) (respTerm : Nat)
    (req : AppendEntriesReq) (cap : Nat) (oa : Nat → Bool) (ev : List Event)
    (log3 : List Entry) :
    (aeSteps45 s3 respTerm req cap oa ev log3).1.voted_for = s3.voted_for := by
  simp only [aeSteps45]
  repeat' split
  all_goals rfl

/-- The append-and-commit tail never decreases `commit_index` and keeps it
within the log, provided it was within `log3`. -/
theorem aeSteps45_commit_bounds (s3 : RaftState) (respTerm : Nat)
    (req : AppendEntriesReq) (cap : Nat) (oa : Nat → Bool) (ev : List Event)
    (log3 : List Entry) (h : s3.commit_index ≤ getLastIndex log3) :
    s3.commit_index ≤ (aeSteps45 s3 respTerm req cap oa ev log3).1.commit_index ∧
      (aeSteps45 s3 respTerm req cap oa ev log3).1.commit_index ≤
        getLastIndex (aeSteps45 s3 respTerm req cap oa ev log3).1.log := by
  have hlen := appendAllEntries_length cap req.entries oa log3 0
  have hlast : getLastIndex log3 ≤
      getLastIndex (appendAllEntries cap log3 req.entries oa 0).1 := by
    simp only [getLastIndex]
    omega
  simp only [aeSteps45]
  split
  · exact ⟨Nat.le_refl _, le_trans h hlast⟩
  · split
    · next hlc =>
      refine ⟨?_, min_le_right _ _⟩
      exact le_min (Nat.le_of_lt hlc) (le_trans h hlast)
    · exact ⟨Nat.le_refl _, le_trans h hlast⟩

theorem aeSteps_fst_current_term (s3 : RaftState) (respTerm : Nat)
    (req : AppendEntriesReq) (cap : Nat) (gE gT : Bool) (oa : Nat → Bool)
    (ev : List Event) :
    (aeSteps2to5 s3 respTerm req cap gE gT oa ev).1.current_term = s3.current_term := by
  simp only [aeSteps2to5]
  repeat' split
  all_goals first
    | rfl
    | rw [aeSteps45_fst_current_term]

theorem aeSteps_fst_voted_for (s3 : RaftState) (respTerm : Nat)
    (req : AppendEntriesReq) (cap : Nat) (gE gT : Bool) (oa : Nat → Bool)
    (ev : List Event) :
    (aeSteps2to5 s3 respTerm req cap gE gT oa ev).1.voted_for = s3.voted_for := by
  simp only [aeSteps2to5]
  repeat' split
  all_goals first
    | rfl
    | rw [aeSteps45_fst_voted_for]

/-- Steps 2-5 of the AppendEntries handler never decrease `commit_index` and
keep `commit_index ≤ lastIndex`, provided the request does not conflict with
committed entries: `commit_index ≤ prev_log_index` when the terms at
`prev_log_index` agree, and `commit_index < prev_log_index` (or
`prev_log_index = 0`, making the truncation fail) when they differ. -/
theorem aeSteps_commit_bounds (s3 : RaftState) (respTerm : Nat)
    (req : AppendEntriesReq) (cap : Nat) (gE gT : Bool) (oa : Nat → Bool)
    (ev : List Event)
    (h : s3.commit_index ≤ getLastIndex s3.log)
    (hsafe : ∀ e, getEntryAtIndex s3.log req.prev_log_index = some e →
      if e.term = req.prev_log_term then s3.commit_index ≤ req.prev_log_index
      else req.prev_log_index = 0 ∨ s3.commit_index < req.prev_log_index) :
    s3.commit_index ≤ (aeSteps2to5 s3 respTerm req cap gE gT oa ev).1.commit_index ∧
      (aeSteps2to5 s3 respTerm req cap gE gT oa ev).1.commit_index ≤
        getLastIndex (aeSteps2to5 s3 respTerm req cap gE gT oa ev).1.log := by
  simp only [aeSteps2to5]
  split
  · exact ⟨Nat.le_refl _, h⟩
  · next prevEntry hE =>
    have hsafeE := hsafe prevEntry hE
    have hlt : req.prev_log_index < s3.log.length := by
      have h2 : s3.log.get? req.prev_log_index = some prevEntry := hE
      obtain ⟨hw, _⟩ := List.get?_eq_some.mp h2
      exact hw
    split
    · next hne =>
      rw [if_neg hne] at hsafeE
      split
      · next log2 hR =>
        simp only [removeEntriesWhereIndexGreaterOrEqual] at hR
        split at hR
        · next hc2 =>
          cases hR
          have hstrict : s3.commit_index < req.prev_log_index := by
            rcases hsafeE with h0 | h1
            · exact absurd h0 hc2.1
            · exact h1
          refine ⟨Nat.le_refl _, ?_⟩
          simp only [getLastIndex, List.length_take]
          omega
        · cases hR
      · exact ⟨Nat.le_refl _, h⟩
    · next heqt =>
      have heqt2 : prevEntry.term = req.prev_log_term := not_not.mp heqt
      rw [if_pos heqt2] at hsafeE
      split
      · split
        · exact ⟨Nat.le_refl _, h⟩
        · next log3 hstep4 =>
          simp only [removeEntriesWhereIndexGreater] at hstep4
          split at hstep4
          · cases hstep4
            refine aeSteps45_commit_bounds _ _ _ _ _ _ _ ?_
            simp only [getLastIndex, List.length_take]
            omega
          · cases hstep4
      · refine aeSteps45_commit_bounds _ _ _ _ _ _ _ h

/-- `aeSteps_commit_bounds` restated with the pre-state commit index and log
as separate variables, so it applies when the state is a compound term. -/
theorem aeSteps_commit_bounds_of (s3 : RaftState) (respTerm : Nat)
    (req : AppendEntriesReq) (cap : Nat) (gE gT : Bool) (oa : Nat → Bool)
    (ev : List Event) (c : Nat) (l : List Entry)
    (hcommit : s3.commit_index = c) (hlog : s3.log = l)
    (h : c ≤ getLastIndex l)
    (hsafe : ∀ e, getEntryAtIndex l req.prev_log_index = some e →
      if e.term = req.prev_log_term then c ≤ req.prev_log_index
      else req.prev_log_index = 0 ∨ c < req.prev_log_index) :
    c ≤ (aeSteps2to5 s3 respTerm req cap gE gT oa ev).1.commit_index ∧
      (aeSteps2to5 s3 respTerm req cap gE gT oa ev).1.commit_index ≤
        getLastIndex (aeSteps2to5 s3 respTerm req cap gE gT oa ev).1.log := by
  subst hcommit
  subst hlog
  exact aeSteps_commit_bounds s3 respTerm req cap gE gT oa ev h hsafe

/-- The AppendEntries handler never decreases `commit_index` and keeps
`commit_index ≤ lastIndex`, under the no-conflict condition on the request. -/
theorem handleAE_commit_bounds (s : RaftState) (req : AppendEntriesReq) (cap : Nat)
    (a b gE gT : Bool) (oa : Nat → Bool) (now : Nat)
    (h : s.commit_index ≤ getLastIndex s.log)
    (hsafe : ∀ e, getEntryAtIndex s.log req.prev_log_index = some e →
      if e.term = req.prev_log_term then s.commit_index ≤ req.prev_log_index
      else req.prev_log_index = 0 ∨ s.commit_index < req.prev_log_index) :
    s.commit_index ≤ (handleAppendEntriesRequest s req cap a b gE gT oa now).1.commit_index ∧
      (handleAppendEntriesRequest s req cap a b gE gT oa now).1.commit_index ≤
        getLastIndex (handleAppendEntriesRequest s req cap a b gE gT oa now).1.log := by
  simp only [handleAppendEntriesRequest, aeAfterTermCheck]
  split
  · exact ⟨Nat.le_refl _, h⟩
  · split
    · split
      · rw [handleError_fst_commit_index, handleError_fst_log]
        exact ⟨Nat.le_refl _, h⟩
      · split
        · rw [handleError_fst_commit_index, handleError_fst_log]
          exact ⟨Nat.le_refl _, h⟩
        · split
          · exact ⟨Nat.le_refl _, h⟩
          · refine aeSteps_commit_bounds_of _ _ _ _ _ _ _ _ s.commit_index s.log
              ?_ ?_ h hsafe
            · simp [setActiveMode, registerActivity, switchState_fst_commit_index]
            · simp [setActiveMode, registerActivity, switchState_fst_log]
    · split
      · exact ⟨Nat.le_refl _, h⟩
      · refine aeSteps_commit_bounds_of _ _ _ _ _ _ _ _ s.commit_index s.log
          ?_ ?_ h hsafe
        · simp [setActiveMode, registerActivity, switchState_fst_commit_index]
        · simp [setActiveMode, registerActivity, switchState_fst_log]

theorem rvAfter_fst_log (s : RaftState) (req : RequestVoteReq) (ok : Bool) (now : Nat) :
    (rvAfterTermCheck s req ok now).1.log = s.log := by
  simp only [rvAfterTermCheck, registerActivity]
  repeat' split
  all_goals simp only [switchState_fst_log]

theorem rvAfter_fst_commit_index (s : RaftState) (req : RequestVoteReq) (ok : Bool)
    (now : Nat) :
    (rvAfterTermCheck s req ok now).1.commit_index = s.commit_index := by
  simp only [rvAfterTermCheck, registerActivity]
  repeat' split
  all_goals simp only [switchState_fst_commit_index]

theorem rvAfter_fst_current_term (s : RaftState) (req : RequestVoteReq) (ok : Bool)
    (now : Nat) :
    (rvAfterTermCheck s req ok now).1.current_term = s.current_term := by
  simp only [rvAfterTermCheck, registerActivity]
  repeat' split
  all_goals simp only [switchState_fst_current_term]

theorem handleRV_fst_log (s : RaftState) (req : RequestVoteReq) (a b c : Bool)
    (now : Nat) :
    (handleRequestVoteRequest s req a b c now).1.log = s.log := by
  simp only [handleRequestVoteRequest, setActiveMode]
  repeat' split
  all_goals simp only [rvAfter_fst_log, handleError_fst_log, switchState_fst_log]

theorem handleRV_fst_commit_index (s : RaftState) (req : RequestVoteReq) (a b c : Bool)
    (now : Nat) :
    (handleRequestVoteRequest s req a b c now).1.commit_index = s.commit_index := by
  simp only [handleRequestVoteRequest, setActiveMode]
  repeat' split
  all_goals simp only [rvAfter_fst_commit_index, handleError_fst_commit_index,
    switchState_fst_commit_index]

/-- Claim C1 (amended).  Across every operation of RaftCore (timer tick,
inbound AppendEntries handler, inbound RequestVote handler, response
callbacks, appendLog), the volatile `commit_index` never decreases and
always satisfies `commit_index ≤ log.last_index` — provided every inbound
AppendEntries request satisfies the no-conflict condition `aeSafe` (it does
not truncate locally committed entries; the counterexample shows the claim
fails without this proviso).  In particular the invariant is preserved by
the handler's truncation steps 3-4, by its `commit_index :=
min(leader_commit, last_index)` update, and by `propagateCommitIndex`. -/
theorem raft_commit_index_monotone_bounded (s : RaftState) (op : Op)
    (h : s.commit_index ≤ getLastIndex s.log) (hsafe : aeSafe s op) :
    s.commit_index ≤ (step s op).commit_index ∧
      (step s op).commit_index ≤ getLastIndex (step s op).log := by
  cases op with
  | tick hd tmo self cap ov ot now =>
    simp only [step, handleTimerEvent, setActiveMode]
    repeat' split
    all_goals first
      | (rw [updateFollower_fst_commit_index, updateFollower_fst_log]
         exact ⟨Nat.le_refl _, h⟩)
      | (rw [updateCandidate_fst_commit_index, updateCandidate_fst_log]
         exact ⟨Nat.le_refl _, h⟩)
      | exact updateLeader_commit_bounds _ _ _ _ rfl h
  | aeRequest req cap a b gE gT oa now =>
    exact handleAE_commit_bounds s req cap a b gE gT oa now h hsafe
  | rvRequest req a b c now =>
    simp only [step]
    rw [handleRV_fst_commit_index, handleRV_fst_log]
    exact ⟨Nat.le_refl _, h⟩
  | aeResponse r a now =>
    simp only [step]
    rw [aeResponse_fst_commit_index, aeResponse_fst_log]
    exact ⟨Nat.le_refl _, h⟩
  | rvResponse r a now =>
    simp only [step]
    rw [rvResponse_fst_commit_index, rvResponse_fst_log]
    exact ⟨Nat.le_refl _, h⟩
  | append uid nid cap ok now =>
    exact appendLog_commit_bounds s uid nid cap ok now h

/-- Witness for claim C1: a concrete Leader tick (quorum reached for entry 1)
on which the amended theorem applies and the commit index advances within
bounds. -/
theorem raft_commit_index_monotone_bounded_witness :
    c1wS.commit_index ≤ getLastIndex c1wS.log ∧
      (c1wS.commit_index ≤ (step c1wS c1wOp).commit_index ∧
        (step c1wS c1wOp).commit_index ≤ getLastIndex (step c1wS c1wOp).log) :=
  ⟨by decide, raft_commit_index_monotone_bounded c1wS c1wOp (by decide) (by trivial)⟩

/-- Counterexample to claim C1 as stated: a Follower whose state satisfies
`commit_index ≤ log.last_index` receives a conflicting AppendEntries request
from a known peer at its own term; the handler's step-3 truncation cuts the
log below the commit index, so after the operation
`commit_index ≤ log.last_index` is false (and a later `min(leader_commit,
last_index)` update could then decrease `commit_index`). -/
theorem raft_commit_index_bound_cex :
    c1cexS.commit_index ≤ getLastIndex c1cexS.log ∧
      ¬ ((step c1cexS c1cexOp).commit_index ≤ getLastIndex (step c1cexS c1cexOp).log) := by
  exact ⟨by decide, by decide⟩

theorem aeAfter_fst_current_term (s : RaftState) (req : AppendEntriesReq) (cap : Nat)
    (gE gT : Bool) (oa : Nat → Bool) (now : Nat) :
    (aeAfterTermCheck s req cap gE gT oa now).1.current_term = s.current_term := by
  simp only [aeAfterTermCheck]
  split
  · rfl
  · rw [aeSteps_fst_current_term]
    simp [setActiveMode, registerActivity, switchState_fst_current_term]

theorem aeAfter_fst_voted_for (s : RaftState) (req : AppendEntriesReq) (cap : Nat)
    (gE gT : Bool) (oa : Nat → Bool) (now : Nat) :
    (aeAfterTermCheck s req cap gE gT oa now).1.voted_for = s.voted_for := by
  simp only [aeAfterTermCheck]
  split
  · rfl
  · rw [aeSteps_fst_voted_for]
    simp [setActiveMode, registerActivity, switchState_fst_voted_for]

/-- `updateCandidate` either leaves both `current_term` and `voted_for`
untouched, or (on any campaign-initiation path that got past the
`setVotedFor` write) leaves `voted_for = some self`. -/
theorem updateCandidate_cases (s : RaftState) (self : Nat) (ov ot : Bool) (now : Nat) :
    ((updateCandidate s self ov ot now).1.current_term = s.current_term ∧
      (updateCandidate s self ov ot now).1.voted_for = s.voted_for)
    ∨ (updateCandidate s self ov ot now).1.voted_for = some self := by
  simp only [updateCandidate]
  split
  · left
    exact ⟨switchState_fst_current_term _ _, switchState_fst_voted_for _ _⟩
  · split
    · left
      exact ⟨handleError_fst_current_term _ _, handleError_fst_voted_for _ _⟩
    · split
      · right
        rw [handleError_fst_voted_for]
      · right
        rfl

/-- A timer tick either leaves both `current_term` and `voted_for` untouched,
or leaves `voted_for = some self` (campaign initiation). -/
theorem handleTimerEvent_term_voted_cases (s : RaftState) (hd tmo : Bool)
    (self cap : Nat) (ov ot : Bool) (now : Nat) :
    ((handleTimerEvent s hd tmo self cap ov ot now).1.current_term = s.current_term ∧
      (handleTimerEvent s hd tmo self cap ov ot now).1.voted_for = s.voted_for)
    ∨ (handleTimerEvent s hd tmo self cap ov ot now).1.voted_for = some self := by
  simp only [handleTimerEvent, setActiveMode]
  repeat' split
  all_goals first
    | (left
       constructor
       · first
         | rw [updateFollower_fst_current_term]
         | rw [updateLeader_fst_current_term]
       · first
         | rw [updateFollower_fst_voted_for]
         | rw [updateLeader_fst_voted_for])
    | (rcases updateCandidate_cases _ self ov ot now with hc | hc
       · left
         exact ⟨hc.1.trans rfl, hc.2.trans rfl⟩
       · right
         exact hc)

/-- The AppendEntries handler either leaves `current_term` and `voted_for`
untouched, or clears `voted_for`, or (when the `resetVotedFor` write fails)
leaves `voted_for` untouched while the term may have advanced. -/
theorem handleAE_term_voted_cases (s : RaftState) (req : AppendEntriesReq) (cap : Nat)
    (a b gE gT : Bool) (oa : Nat → Bool) (now : Nat) :
    ((handleAppendEntriesRequest s req cap a b gE gT oa now).1.current_term = s.current_term ∧
      (handleAppendEntriesRequest s req cap a b gE gT oa now).1.voted_for = s.voted_for)
    ∨ (handleAppendEntriesRequest s req cap a b gE gT oa now).1.voted_for = none
    ∨ ((handleAppendEntriesRequest s req cap a b gE gT oa now).1.voted_for = s.voted_for ∧
        b = false) := by
  simp only [handleAppendEntriesRequest]
  split
  · left
    exact ⟨rfl, rfl⟩
  · split
    · split
      · left
        exact ⟨handleError_fst_current_term _ _, handleError_fst_voted_for _ _⟩
      · split
        · next hb =>
          right; right
          exact ⟨by rw [handleError_fst_voted_for], hb⟩
        · right; left
          rw [aeAfter_fst_voted_for]
    · left
      exact ⟨aeAfter_fst_current_term _ _ _ _ _ _ _, aeAfter_fst_voted_for _ _ _ _ _ _ _⟩

/-- After `rvAfterTermCheck`, `voted_for` is either untouched or durably set
to the vote-request source. -/
theorem rvAfter_voted_cases (s : RaftState) (req : RequestVoteReq) (ok : Bool)
    (now : Nat) :
    (rvAfterTermCheck s req ok now).1.voted_for = s.voted_for
    ∨ (rvAfterTermCheck s req ok now).1.voted_for = some req.src := by
  simp only [rvAfterTermCheck, registerActivity]
  repeat' split
  all_goals first
    | (left; rw [switchState_fst_voted_for])
    | left ; rfl
    | right ; rfl

/-- The RequestVote handler either leaves `current_term` and `voted_for`
untouched, or clears `voted_for`, or grants the vote (setting `voted_for` to
the source), or (when the `resetVotedFor` write fails) leaves `voted_for`
untouched while the term may have advanced. -/
theorem handleRV_term_voted_cases (s : RaftState) (req : RequestVoteReq)
    (a b c : Bool) (now : Nat) :
    ((handleRequestVoteRequest s req a b c now).1.current_term = s.current_term ∧
      (handleRequestVoteRequest s req a b c now).1.voted_for = s.voted_for)
    ∨ (handleRequestVoteRequest s req a b c now).1.voted_for = none
    ∨ (handleRequestVoteRequest s req a b c now).1.voted_for = some req.src
    ∨ ((handleRequestVoteRequest s req a b c now).1.voted_for = s.voted_for ∧
        b = false) := by
  simp only [handleRequestVoteRequest, setActiveMode]
  split
  · left
    exact ⟨rfl, rfl⟩
  · split
    · split
      · left
        constructor
        · simp only [handleError_fst_current_term, switchState_fst_current_term]
        · simp only [handleError_fst_voted_for, switchState_fst_voted_for]
      · split
        · next hb =>
          right; right; right
          exact ⟨by simp only [handleError_fst_voted_for, switchState_fst_voted_for], hb⟩
        · rcases rvAfter_voted_cases _ req c now with hv | hv
          · right; left
            exact hv.trans rfl
          · right; right; left
            exact hv
    · rcases rvAfter_voted_cases _ req c now with hv | hv
      · left
        constructor
        · rw [rvAfter_fst_current_term]
        · exact hv.trans rfl
      · right; right; left
        exact hv

/-- Claim C2 (amended).  Whenever an operation durably advances
`current_term` to a strictly greater value, `voted_for` ends the operation
cleared — except on exactly these paths: the Candidate campaign-initiation
path sets `voted_for` to the node's own ID (it performs `setVotedFor(self)`
and then `setCurrentTerm(current_term + 1)`, so the vote survives the
advance); the RequestVote handler may re-set `voted_for` to the request
source after clearing it (vote granted in the adopted term); and `voted_for`
is left entirely unchanged when the handler's `resetVotedFor` write fails or
when the advance happens in a response callback
(`tryIncrementCurrentTermFromResponse` never touches `voted_for`). -/
theorem voted_for_on_term_advance (s : RaftState) (op : Op)
    (hadv : s.current_term < (step s op).current_term) :
    (step s op).voted_for = none
    ∨ (∃ hd tmo self cap ov ot now, op = Op.tick hd tmo self cap ov ot now ∧
        (step s op).voted_for = some self)
    ∨ (∃ req a b c now, op = Op.rvRequest req a b c now ∧
        (step s op).voted_for = some req.src)
    ∨ ((step s op).voted_for = s.voted_for ∧ votedForRetained op) := by
  cases op with
  | tick hd tmo self cap ov ot now =>
    simp only [step] at hadv ⊢
    rcases handleTimerEvent_term_voted_cases s hd tmo self cap ov ot now with ⟨ht, _⟩ | hv
    · rw [ht] at hadv
      exact absurd hadv (lt_irrefl _)
    · right; left
      exact ⟨hd, tmo, self, cap, ov, ot, now, rfl, hv⟩
  | aeRequest req cap a b gE gT oa now =>
    simp only [step] at hadv ⊢
    rcases handleAE_term_voted_cases s req cap a b gE gT oa now with ⟨ht, _⟩ | hv | ⟨hv, hb⟩
    · rw [ht] at hadv
      exact absurd hadv (lt_irrefl _)
    · left
      exact hv
    · right; right; right
      exact ⟨hv, hb⟩
  | rvRequest req a b c now =>
    simp only [step] at hadv ⊢
    rcases handleRV_term_voted_cases s req a b c now with ⟨ht, _⟩ | hv | hv | ⟨hv, hb⟩
    · rw [ht] at hadv
      exact absurd hadv (lt_irrefl _)
    · left
      exact hv
    · right; right; left
      exact ⟨req, a, b, c, now, rfl, hv⟩
    · right; right; right
      exact ⟨hv, hb⟩
  | aeResponse r a now =>
    right; right; right
    simp only [step]
    exact ⟨aeResponse_fst_voted_for s r a now, trivial⟩
  | rvResponse r a now =>
    right; right; right
    simp only [step]
    exact ⟨rvResponse_fst_voted_for s r a now, trivial⟩
  | append uid nid cap ok now =>
    simp only [step] at hadv
    rw [appendLog_fst_current_term] at hadv
    exact absurd hadv (lt_irrefl _)

/-- Witness for claim C2: the concrete campaign-initiation tick advances the
term, and the theorem classifies the surviving vote as the self-vote. -/
theorem voted_for_on_term_advance_witness :
    (step c2S c2Op).voted_for = none
    ∨ (∃ hd tmo self cap ov ot now, c2Op = Op.tick hd tmo self cap ov ot now ∧
        (step c2S c2Op).voted_for = some self)
    ∨ (∃ req a b c now, c2Op = Op.rvRequest req a b c now ∧
        (step c2S c2Op).voted_for = some req.src)
    ∨ ((step c2S c2Op).voted_for = c2S.voted_for ∧ votedForRetained c2Op) :=
  voted_for_on_term_advance c2S c2Op (by decide)

/-- Counterexample to claim C2 as stated: on the Candidate
campaign-initiation tick the term durably advances from 1 to 2, yet
`voted_for` is not cleared — it ends the operation set to the node's own
ID. -/
theorem voted_for_on_term_advance_cex :
    c2S.current_term < (step c2S c2Op).current_term ∧
      (step c2S c2Op).voted_for ≠ none :=
  ⟨by decide, by decide⟩

/-- Claim C3.  On every Leader tick where `commit_index < log.last_index`,
`propagateCommitIndex` sets `active_mode` to true, then counts the local
node plus every known peer whose `match_index > commit_index`; iff that
count reaches the quorum size it increments `commit_index` by exactly 1
(never more per invocation) and invokes the leader monitor's
`handleLogCommitOnLeader` with the log entry at the new commit index;
otherwise it changes nothing else and notifies nobody. -/
theorem propagate_commit_advance (s : RaftState)
    (_hlead : s.server_state = ServerState.Leader)
    (h : s.commit_index < getLastIndex s.log) :
    (propagateCommitIndex s).1.active_mode = true ∧
    ((propagateCommitIndex s).1.commit_index = s.commit_index + 1 ↔
      quorumSize s.cluster ≤
        1 + (s.cluster.peers.filter
              (fun p => decide (s.commit_index < p.match_index))).length) ∧
    (quorumSize s.cluster ≤
        1 + (s.cluster.peers.filter
              (fun p => decide (s.commit_index < p.match_index))).length →
      ∃ e, getEntryAtIndex s.log (s.commit_index + 1) = some e ∧
        (propagateCommitIndex s).2 = [Event.LogCommitOnLeader e]) ∧
    (1 + (s.cluster.peers.filter
              (fun p => decide (s.commit_index < p.match_index))).length <
        quorumSize s.cluster →
      (propagateCommitIndex s).1.commit_index = s.commit_index ∧
        (propagateCommitIndex s).2 = []) := by
  have hne : ¬ (s.commit_index = getLastIndex s.log) := Nat.ne_of_lt h
  have hlt : s.commit_index + 1 < s.log.length := by
    simp only [getLastIndex] at h
    omega
  simp only [propagateCommitIndex, setActiveMode]
  rw [if_neg hne]
  split
  · next hq =>
    refine ⟨rfl, iff_of_true rfl hq, fun _ => ?_, fun hlt2 => absurd hq (Nat.not_le.mpr hlt2)⟩
    refine ⟨s.log.get ⟨s.commit_index + 1, hlt⟩, ?_, ?_⟩
    · exact List.get?_eq_get hlt
    · have hE : getEntryAtIndex s.log (s.commit_index + 1) =
          some (s.log.get ⟨s.commit_index + 1, hlt⟩) := List.get?_eq_get hlt
      simp only [hE, Option.getD_some]
  · next hq =>
    refine ⟨rfl, iff_of_false (fun hx => Nat.succ_ne_self s.commit_index hx.symm) hq,
      fun hq2 => absurd hq2 hq, fun _ => ⟨rfl, rfl⟩⟩

/-- Witness for claim C3: on the concrete state `c3S` the count is 2 (self
plus peer 2), the quorum is 2, so the commit index advances to 1 and the
committed entry is reported. -/
theorem propagate_commit_advance_witness :
    c3S.server_state = ServerState.Leader ∧ c3S.commit_index < getLastIndex c3S.log ∧
      ((propagateCommitIndex c3S).1.active_mode = true ∧
       ((propagateCommitIndex c3S).1.commit_index = c3S.commit_index + 1 ↔
         quorumSize c3S.cluster ≤
           1 + (c3S.cluster.peers.filter
                 (fun p => decide (c3S.commit_index < p.match_index))).length) ∧
       (quorumSize c3S.cluster ≤
           1 + (c3S.cluster.peers.filter
                 (fun p => decide (c3S.commit_index < p.match_index))).length →
         ∃ e, getEntryAtIndex c3S.log (c3S.commit_index + 1) = some e ∧
           (propagateCommitIndex c3S).2 = [Event.LogCommitOnLeader e]) ∧
       (1 + (c3S.cluster.peers.filter
                 (fun p => decide (c3S.commit_index < p.match_index))).length <
           quorumSize c3S.cluster →
         (propagateCommitIndex c3S).1.commit_index = c3S.commit_index ∧
           (propagateCommitIndex c3S).2 = [])) :=
  ⟨by decide, by decide, propagate_commit_advance c3S (by decide) (by decide)⟩

/-- Claim C4.  On every Leader tick where `commit_index = log.last_index`,
`propagateCommitIndex` sets `active_mode` to false iff every known peer has
`match_index = commit_index` and `next_index > commit_index` and the cluster
is fully discovered; otherwise it sets `active_mode` to true. -/
theorem propagate_passive_iff (s : RaftState)
    (_hlead : s.server_state = ServerState.Leader)
    (h : s.commit_index = getLastIndex s.log) :
    ((propagateCommitIndex s).1.active_mode = false ↔
      ((∀ p ∈ s.cluster.peers,
          p.match_index = s.commit_index ∧ s.commit_index < p.next_index) ∧
        isClusterDiscovered s.cluster = true)) ∧
    ((propagateCommitIndex s).1.active_mode = true ↔
      ¬ ((∀ p ∈ s.cluster.peers,
            p.match_index = s.commit_index ∧ s.commit_index < p.next_index) ∧
          isClusterDiscovered s.cluster = true)) := by
  have h1 : (propagateCommitIndex s).1.active_mode = false ↔
      ((∀ p ∈ s.cluster.peers,
          p.match_index = s.commit_index ∧ s.commit_index < p.next_index) ∧
        isClusterDiscovered s.cluster = true) := by
    simp only [propagateCommitIndex, setActiveMode]
    rw [if_pos h]
    simp [List.all_eq_true, decide_eq_true_eq]
  refine ⟨h1, ?_⟩
  rw [← h1]
  cases hb : (propagateCommitIndex s).1.active_mode <;> simp

/-- Witness for claim C4: on the concrete state `c4S` (fully replicated,
fully discovered) the passive condition holds on both sides of the iff. -/
theorem propagate_passive_iff_witness :
    c4S.server_state = ServerState.Leader ∧ c4S.commit_index = getLastIndex c4S.log ∧
      (((propagateCommitIndex c4S).1.active_mode = false ↔
        ((∀ p ∈ c4S.cluster.peers,
            p.match_index = c4S.commit_index ∧ c4S.commit_index < p.next_index) ∧
          isClusterDiscovered c4S.cluster = true)) ∧
       ((propagateCommitIndex c4S).1.active_mode = true ↔
        ¬ ((∀ p ∈ c4S.cluster.peers,
              p.match_index = c4S.commit_index ∧ c4S.commit_index < p.next_index) ∧
            isClusterDiscovered c4S.cluster = true))) :=
  ⟨by decide, by decide, propagate_passive_iff c4S (by decide) (by decide)⟩

/-- Step 3 of the AppendEntries handler, isolated: on a term mismatch at
`prev_log_index`, the log is truncated with
`removeEntriesWhereIndexGreaterOrEqual`; the response (success = false,
carrying `respTerm`) is enabled exactly when the truncation succeeded, and
suppressed when it failed. -/
theorem aeSteps_conflict (s3 : RaftState) (respTerm : Nat) (req : AppendEntriesReq)
    (cap : Nat) (gE gT : Bool) (oa : Nat → Bool) (ev : List Event) (e : Entry)
    (l : List Entry) (hlog : s3.log = l)
    (hprev : getEntryAtIndex l req.prev_log_index = some e)
    (hmm : e.term ≠ req.prev_log_term) :
    ((req.prev_log_index ≠ 0 ∧ gE = true) →
      (aeSteps2to5 s3 respTerm req cap gE gT oa ev).2.1 =
          some { term := respTerm, success := false } ∧
        (aeSteps2to5 s3 respTerm req cap gE gT oa ev).1.log =
          l.take req.prev_log_index) ∧
    ((req.prev_log_index = 0 ∨ gE = false) →
      (aeSteps2to5 s3 respTerm req cap gE gT oa ev).2.1 = none ∧
        (aeSteps2to5 s3 respTerm req cap gE gT oa ev).1.log = l) := by
  subst hlog
  simp only [aeSteps2to5]
  split
  · next hE =>
    rw [hE] at hprev
    exact Option.noConfusion hprev
  · next prevEntry hE =>
    rw [hE] at hprev
    have he2 : prevEntry = e := Option.some.inj hprev
    subst he2
    rw [if_pos hmm]
    constructor
    · rintro ⟨hnz, hge⟩
      simp only [removeEntriesWhereIndexGreaterOrEqual]
      rw [if_pos ⟨hnz, hge⟩]
      exact ⟨rfl, rfl⟩
    · intro hd
      have hng : ¬ (req.prev_log_index ≠ 0 ∧ gE = true) := by
        rintro ⟨hnz, hge⟩
        rcases hd with h0 | h0
        · exact hnz h0
        · rw [h0] at hge
          exact Bool.noConfusion hge
      simp only [removeEntriesWhereIndexGreaterOrEqual]
      rw [if_neg hng]
      exact ⟨rfl, rfl⟩

/-- Claim C5.  In the inbound AppendEntries handler, when the entry at
`request.prev_log_index` exists but its term differs from
`request.prev_log_term`, the handler truncates the log with
`removeEntriesWhereIndexGreaterOrEqual(prev_log_index)` and replies
success = false exactly when the truncation succeeded; if the truncation
fails (storage write failure, or `prev_log_index = 0`), the response is
suppressed and the log is unchanged.  The hypotheses pin the step-3 path:
known source, non-stale term, successful term adoption. -/
theorem ae_conflict_truncation (s : RaftState) (req : AppendEntriesReq) (cap : Nat)
    (gE gT : Bool) (oa : Nat → Bool) (now : Nat) (e : Entry)
    (hknown : isKnownServer s.cluster req.src = true)
    (hterm : s.current_term ≤ req.term)
    (hprev : getEntryAtIndex s.log req.prev_log_index = some e)
    (hmm : e.term ≠ req.prev_log_term) :
    ((req.prev_log_index ≠ 0 ∧ gE = true) →
      (handleAppendEntriesRequest s req cap true true gE gT oa now).2.1 =
          some { term := req.term, success := false } ∧
        (handleAppendEntriesRequest s req cap true true gE gT oa now).1.log =
          s.log.take req.prev_log_index) ∧
    ((req.prev_log_index = 0 ∨ gE = false) →
      (handleAppendEntriesRequest s req cap true true gE gT oa now).2.1 = none ∧
        (handleAppendEntriesRequest s req cap true true gE gT oa now).1.log = s.log) := by
  have h1 : ¬ (isKnownServer s.cluster req.src = false) := by simp [hknown]
  simp only [handleAppendEntriesRequest, aeAfterTermCheck]
  rw [if_neg h1]
  by_cases hadopt : s.current_term < req.term
  · rw [if_pos hadopt, if_neg (by decide : ¬ (true = false)),
      if_neg (by decide : ¬ (true = false)), if_neg (lt_irrefl req.term)]
    exact aeSteps_conflict _ _ req cap gE gT oa _ e s.log
      (by simp [setActiveMode, registerActivity, switchState_fst_log]) hprev hmm
  · have heq : s.current_term = req.term := Nat.le_antisymm hterm (Nat.not_lt.mp hadopt)
    rw [if_neg hadopt, if_neg (by rw [heq]; exact lt_irrefl req.term)]
    have hmain := aeSteps_conflict
      (setActiveMode (switchState (registerActivity s now) ServerState.Follower).1 false)
      s.current_term req cap gE gT oa
      (switchState (registerActivity s now) ServerState.Follower).2 e s.log
      (by simp [setActiveMode, registerActivity, switchState_fst_log]) hprev hmm
    constructor
    · intro hx
      refine ⟨(hmain.1 hx).1.trans ?_, (hmain.1 hx).2⟩
      rw [heq]
    · exact hmain.2

/-- Witness for claim C5: on the concrete conflicting request, with the
truncation write succeeding the reply is a NACK at the leader's term and the
log is truncated to the sentinel; the no-reply side holds vacuously. -/
theorem ae_conflict_truncation_witness :
    isKnownServer c5S.cluster c5Req.src = true ∧
      c5S.current_term ≤ c5Req.term ∧
      getEntryAtIndex c5S.log c5Req.prev_log_index = some c5E ∧
      c5E.term ≠ c5Req.prev_log_term ∧
      (((c5Req.prev_log_index ≠ 0 ∧ true = true) →
        (handleAppendEntriesRequest c5S c5Req 8 true true true true (fun _ => true) 5).2.1 =
            some { term := c5Req.term, success := false } ∧
          (handleAppendEntriesRequest c5S c5Req 8 true true true true (fun _ => true) 5).1.log =
            c5S.log.take c5Req.prev_log_index) ∧
       ((c5Req.prev_log_index = 0 ∨ true = false) →
        (handleAppendEntriesRequest c5S c5Req 8 true true true true (fun _ => true) 5).2.1 = none ∧
          (handleAppendEntriesRequest c5S c5Req 8 true true true true (fun _ => true) 5).1.log =
            c5S.log)) :=
  ⟨by decide, by decide, by decide, by decide,
    ae_conflict_truncation c5S c5Req 8 true true (fun _ => true) 5 c5E
      (by decide) (by decide) (by decide) (by decide)⟩

/-- Claim C6.  For every inbound AppendEntries request from a known peer
whose term is strictly less than `current_term`, the handler replies
`{term: current_term, success: false}` and changes nothing at all: role,
active mode, activity timestamp, commit index, log, current term and
voted-for are all untouched, and no events are emitted. -/
theorem ae_stale_term_frame (s : RaftState) (req : AppendEntriesReq) (cap : Nat)
    (a b gE gT : Bool) (oa : Nat → Bool) (now : Nat)
    (hknown : isKnownServer s.cluster req.src = true)
    (hterm : req.term < s.current_term) :
    handleAppendEntriesRequest s req cap a b gE gT oa now =
      (s, some { term := s.current_term, success := false }, []) := by
  have h1 : ¬ (isKnownServer s.cluster req.src = false) := by simp [hknown]
  have h2 : ¬ (s.current_term < req.term) := by omega
  simp only [handleAppendEntriesRequest, aeAfterTermCheck]
  rw [if_neg h1, if_neg h2, if_pos hterm]

/-- Witness for claim C6: the concrete stale request is NACKed at term 4 and
the entire state is returned unchanged. -/
theorem ae_stale_term_frame_witness :
    isKnownServer c6S.cluster c6Req.src = true ∧
      c6Req.term < c6S.current_term ∧
      handleAppendEntriesRequest c6S c6Req 8 true true true true (fun _ => true) 5 =
        (c6S, some { term := c6S.current_term, success := false }, []) :=
  ⟨by decide, by decide,
    ae_stale_term_frame c6S c6Req 8 true true true true (fun _ => true) 5
      (by decide) (by decide)⟩

/-- Vote decision of `rvAfterTermCheck`, with the pre-state components taken
as separate variables so the lemma applies to compound state expressions:
the vote is granted iff no conflicting vote exists and the candidate's log
is up to date; a granted vote switches to Follower, registers activity and
durably records the vote, suppressing the response if that write fails. -/
theorem rvAfter_vote_char (s : RaftState) (req : RequestVoteReq) (ok : Bool)
    (now : Nat) (l : List Entry) (vf : Option Nat) (t : Nat)
    (hlog : s.log = l) (hvf : s.voted_for = vf) (ht : s.current_term = t)
    (hterm2 : t ≤ req.term) :
    (∀ r, (rvAfterTermCheck s req ok now).2.1 = some r →
        (r.vote_granted = true ↔
          ((vf = none ∨ vf = some req.src) ∧
            isOtherLogUpToDate l req.last_log_index req.last_log_term = true))) ∧
    (((vf = none ∨ vf = some req.src) ∧
        isOtherLogUpToDate l req.last_log_index req.last_log_term = true) →
      (rvAfterTermCheck s req ok now).1.server_state = ServerState.Follower ∧
      (rvAfterTermCheck s req ok now).1.last_activity_timestamp = now ∧
      (ok = true →
        (rvAfterTermCheck s req ok now).1.voted_for = some req.src ∧
        (rvAfterTermCheck s req ok now).2.1 =
          some { term := t, vote_granted := true }) ∧
      (ok = false → (rvAfterTermCheck s req ok now).2.1 = none)) := by
  subst hlog
  subst hvf
  subst ht
  have hnl : ¬ (req.term < s.current_term) := by omega
  simp only [rvAfterTermCheck, registerActivity]
  rw [if_neg hnl]
  by_cases hg : ((s.voted_for = none ∨ s.voted_for = some req.src) ∧
      isOtherLogUpToDate s.log req.last_log_index req.last_log_term = true)
  · rw [if_pos hg]
    cases ok with
    | false =>
      rw [if_pos rfl]
      constructor
      · intro r hr
        exact Option.noConfusion hr
      · intro _
        refine ⟨?_, rfl, ?_, fun _ => rfl⟩
        · simp [switchState_fst_server_state]
        · intro hok
          exact Bool.noConfusion hok
    | true =>
      rw [if_neg (by decide : ¬ (true = false))]
      constructor
      · intro r hr
        have h2 : ({ term := s.current_term, vote_granted := true } : RVResponse) = r :=
          Option.some.inj hr
        subst h2
        exact iff_of_true rfl hg
      · intro _
        refine ⟨?_, rfl, fun _ => ⟨rfl, rfl⟩, ?_⟩
        · simp [switchState_fst_server_state]
        · intro hok
          exact Bool.noConfusion hok
  · rw [if_neg hg]
    constructor
    · intro r hr
      have h2 : ({ term := s.current_term, vote_granted := false } : RVResponse) = r :=
        Option.some.inj hr
      subst h2
      exact iff_of_false (fun hx => Bool.noConfusion hx) hg
    · intro hgx
      exact absurd hgx hg

/-- Claim C7.  In the inbound RequestVote handler, for a request from a known
peer whose term — after any successful adoption of a higher term — equals
`current_term`, the vote is granted iff
(`voted_for` is unset OR equals the source, evaluated after the adoption
step, which clears it) AND `log.is_other_log_up_to_date(last_log_index,
last_log_term)`; and when granted the node switches to Follower, registers
activity (timestamp = now), and durably sets `voted_for` to the source,
suppressing the response if that write fails. -/
theorem rv_vote_grant (s : RaftState) (req : RequestVoteReq) (okv : Bool) (now : Nat)
    (hknown : isKnownServer s.cluster req.src = true)
    (hterm : s.current_term ≤ req.term) :
    (∀ r, (handleRequestVoteRequest s req true true okv now).2.1 = some r →
        (r.vote_granted = true ↔
          (((if s.current_term < req.term then none else s.voted_for) = none ∨
            (if s.current_term < req.term then none else s.voted_for) = some req.src) ∧
            isOtherLogUpToDate s.log req.last_log_index req.last_log_term = true))) ∧
    ((((if s.current_term < req.term then none else s.voted_for) = none ∨
        (if s.current_term < req.term then none else s.voted_for) = some req.src) ∧
        isOtherLogUpToDate s.log req.last_log_index req.last_log_term = true) →
      (handleRequestVoteRequest s req true true okv now).1.server_state =
          ServerState.Follower ∧
      (handleRequestVoteRequest s req true true okv now).1.last_activity_timestamp = now ∧
      (okv = true →
        (handleRequestVoteRequest s req true true okv now).1.voted_for = some req.src ∧
        (handleRequestVoteRequest s req true true okv now).2.1 =
          some { term := req.term, vote_granted := true }) ∧
      (okv = false →
        (handleRequestVoteRequest s req true true okv now).2.1 = none)) := by
  have h1 : ¬ (isKnownServer s.cluster req.src = false) := by simp [hknown]
  have hTF : ¬ (true = false) := by decide
  by_cases hadopt : s.current_term < req.term
  · simp only [handleRequestVoteRequest, setActiveMode]
    rw [if_neg h1, if_pos hadopt, if_pos hadopt, if_neg hTF, if_neg hTF]
    refine rvAfter_vote_char _ req okv now s.log none req.term ?_ ?_ ?_ (le_refl req.term)
    · simp [switchState_fst_log]
    · rfl
    · rfl
  · have heq : s.current_term = req.term := Nat.le_antisymm hterm (Nat.not_lt.mp hadopt)
    simp only [handleRequestVoteRequest, setActiveMode]
    rw [if_neg h1, if_neg hadopt, if_neg hadopt]
    refine rvAfter_vote_char _ req okv now s.log s.voted_for req.term
      ?_ ?_ ?_ (le_refl req.term)
    · rfl
    · rfl
    · exact heq

/-- Witness for claim C7: peer 2's request is granted on `c7S` (no prior
vote, up-to-date log): the node becomes Follower, stamps activity, and
records the vote durably. -/
theorem rv_vote_grant_witness :
    isKnownServer c7S.cluster c7Req.src = true ∧
      c7S.current_term ≤ c7Req.term ∧
      ((∀ r, (handleRequestVoteRequest c7S c7Req true true true 5).2.1 = some r →
          (r.vote_granted = true ↔
            (((if c7S.current_term < c7Req.term then none else c7S.voted_for) = none ∨
              (if c7S.current_term < c7Req.term then none else c7S.voted_for) =
                some c7Req.src) ∧
              isOtherLogUpToDate c7S.log c7Req.last_log_index c7Req.last_log_term = true))) ∧
       ((((if c7S.current_term < c7Req.term then none else c7S.voted_for) = none ∨
          (if c7S.current_term < c7Req.term then none else c7S.voted_for) =
            some c7Req.src) ∧
          isOtherLogUpToDate c7S.log c7Req.last_log_index c7Req.last_log_term = true) →
        (handleRequestVoteRequest c7S c7Req true true true 5).1.server_state =
            ServerState.Follower ∧
        (handleRequestVoteRequest c7S c7Req true true true 5).1.last_activity_timestamp = 5 ∧
        (true = true →
          (handleRequestVoteRequest c7S c7Req true true true 5).1.voted_for =
              some c7Req.src ∧
          (handleRequestVoteRequest c7S c7Req true true true 5).2.1 =
            some { term := c7Req.term, vote_granted := true }) ∧
        (true = false →
          (handleRequestVoteRequest c7S c7Req true true true 5).2.1 = none))) :=
  ⟨by decide, by decide, rv_vote_grant c7S c7Req true 5 (by decide) (by decide)⟩

theorem switchState_fst_num_votes_of_ne (s : RaftState) (st : ServerState)
    (hne : s.server_state ≠ st) :
    (switchState s st).1.num_votes_received = 0 := by
  simp only [switchState]
  rw [if_neg hne]
  split <;> rfl

theorem switchState_fst_pending_rv_of_ne (s : RaftState) (st : ServerState)
    (hne : s.server_state ≠ st) :
    (switchState s st).1.pending_rv_calls = 0 := by
  simp only [switchState]
  rw [if_neg hne]
  split <;> rfl

theorem switchState_events (s : RaftState) (st : ServerState) :
    (switchState s st).2 = [] ∨
      ∃ b, (switchState s st).2 = [Event.LeadershipChange b] := by
  simp only [switchState]
  split
  · left
    rfl
  · split
    · right
      exact ⟨_, rfl⟩
    · left
      rfl

/-- Claim C8.  On every Candidate tick with `votes_received > 0`, the node
switches to Leader iff `votes_received ≥ quorum_size` and to Follower
otherwise; either way the campaign ends on that tick — the state switch
resets the vote tally to 0 and cancels the pending RequestVote calls — and
no new RequestVote call is issued on that tick. -/
theorem candidate_tally (s : RaftState) (hd tmo : Bool) (self cap : Nat)
    (ov ot : Bool) (now : Nat)
    (hcand : s.server_state = ServerState.Candidate)
    (hv : 0 < s.num_votes_received) :
    (handleTimerEvent s hd tmo self cap ov ot now).1.server_state =
      (if quorumSize s.cluster ≤ s.num_votes_received then ServerState.Leader
       else ServerState.Follower) ∧
    (handleTimerEvent s hd tmo self cap ov ot now).1.num_votes_received = 0 ∧
    (handleTimerEvent s hd tmo self cap ov ot now).1.pending_rv_calls = 0 ∧
    (∀ n, Event.VoteRequestIssued n ∉ (handleTimerEvent s hd tmo self cap ov ot now).2) := by
  have hnl : ¬ (hd = true ∧ s.server_state = ServerState.Leader) := by
    rintro ⟨_, hx⟩
    rw [hcand] at hx
    cases hx
  simp only [handleTimerEvent, setActiveMode]
  rw [if_neg hnl, hcand]
  simp only [updateCandidate]
  rw [if_pos hv]
  by_cases hq : quorumSize s.cluster ≤ s.num_votes_received
  · rw [if_pos hq]
    refine ⟨switchState_fst_server_state _ _,
      switchState_fst_num_votes_of_ne _ _ (by rw [hcand]; decide),
      switchState_fst_pending_rv_of_ne _ _ (by rw [hcand]; decide), ?_⟩
    intro n
    rcases switchState_events s ServerState.Leader with he | ⟨bb, he⟩ <;> rw [he] <;> simp
  · rw [if_neg hq]
    refine ⟨switchState_fst_server_state _ _,
      switchState_fst_num_votes_of_ne _ _ (by rw [hcand]; decide),
      switchState_fst_pending_rv_of_ne _ _ (by rw [hcand]; decide), ?_⟩
    intro n
    rcases switchState_events s ServerState.Follower with he | ⟨bb, he⟩ <;> rw [he] <;> simp

/-- Witness for claim C8: on `c8S` (2 votes, quorum 2) the tick promotes the
node to Leader, zeroes the tally, cancels the pending vote calls, and issues
no new RequestVote. -/
theorem candidate_tally_witness :
    c8S.server_state = ServerState.Candidate ∧ 0 < c8S.num_votes_received ∧
      ((handleTimerEvent c8S false false 1 8 true true 9).1.server_state =
        (if quorumSize c8S.cluster ≤ c8S.num_votes_received then ServerState.Leader
         else ServerState.Follower) ∧
       (handleTimerEvent c8S false false 1 8 true true 9).1.num_votes_received = 0 ∧
       (handleTimerEvent c8S false false 1 8 true true 9).1.pending_rv_calls = 0 ∧
       (∀ n, Event.VoteRequestIssued n ∉ (handleTimerEvent c8S false false 1 8 true true 9).2)) :=
  ⟨by decide, by decide, candidate_tally c8S false false 1 8 true true 9 (by decide) (by decide)⟩

/-- Claim C9.  Calling `appendLog(unique_id, node_id)` when the node is not
Leader changes no state at all: the whole state is returned unchanged, no
log entry is appended, no event is emitted, and no error is reported to the
caller (with assertions disabled the call is a silent no-op). -/
theorem appendLog_not_leader (s : RaftState) (uid : List Nat) (nid cap : Nat)
    (ok : Bool) (now : Nat) (h : s.server_state ≠ ServerState.Leader) :
    appendLog s uid nid cap ok now = (s, []) := by
  simp only [appendLog]
  rw [if_neg h]

/-- Witness for claim C9: calling appendLog on the concrete Follower `c9S`
returns the state unchanged with no events. -/
theorem appendLog_not_leader_witness :
    c9S.server_state ≠ ServerState.Leader ∧
      appendLog c9S [7] 42 8 true 9 = (c9S, []) :=
  ⟨by decide, appendLog_not_leader c9S [7] 42 8 true 9 (by decide)⟩

/-- Claim C10.  During Candidate campaign initiation, if `setVotedFor(self)`
succeeds but the subsequent `setCurrentTerm(current_term + 1)` fails, the
node performs persistent-state error recovery — it becomes a Follower with
`active_mode = false` and activity registered — while `current_term` is
unchanged and `voted_for` remains durably set to the node's own ID: campaign
initiation is not atomic with respect to persistent state on error. -/
theorem campaign_term_write_failure (s : RaftState) (hd tmo : Bool)
    (self cap : Nat) (now : Nat)
    (hcand : s.server_state = ServerState.Candidate)
    (hv : s.num_votes_received = 0) :
    (handleTimerEvent s hd tmo self cap true false now).1.current_term = s.current_term ∧
    (handleTimerEvent s hd tmo self cap true false now).1.voted_for = some self ∧
    (handleTimerEvent s hd tmo self cap true false now).1.server_state =
      ServerState.Follower ∧
    (handleTimerEvent s hd tmo self cap true false now).1.active_mode = false ∧
    (handleTimerEvent s hd tmo self cap true false now).1.last_activity_timestamp = now := by
  have hnl : ¬ (hd = true ∧ s.server_state = ServerState.Leader) := by
    rintro ⟨_, hx⟩
    rw [hcand] at hx
    cases hx
  simp only [handleTimerEvent, setActiveMode]
  rw [if_neg hnl, hcand]
  simp only [updateCandidate]
  rw [hv, if_neg (by decide : ¬ (0 < 0)), if_neg (by decide : ¬ (true = false)),
    if_pos trivial]
  refine ⟨?_, ?_, handleError_fst_server_state _ _, handleError_fst_active_mode _ _,
    handleError_fst_last_activity _ _⟩
  · rw [handleError_fst_current_term]
  · rw [handleError_fst_voted_for]

/-- Witness for claim C10: on the concrete Candidate `c2S`, with the
self-vote write succeeding and the term write failing, the node falls back
to passive Follower at the same term with `voted_for = some 1`. -/
theorem campaign_term_write_failure_witness :
    c2S.server_state = ServerState.Candidate ∧ c2S.num_votes_received = 0 ∧
      ((handleTimerEvent c2S false false 1 8 true false 7).1.current_term =
          c2S.current_term ∧
       (handleTimerEvent c2S false false 1 8 true false 7).1.voted_for = some 1 ∧
       (handleTimerEvent c2S false false 1 8 true false 7).1.server_state =
          ServerState.Follower ∧
       (handleTimerEvent c2S false false 1 8 true false 7).1.active_mode = false ∧
       (handleTimerEvent c2S false false 1 8 true false 7).1.last_activity_timestamp = 7) :=
  ⟨by decide, by decide, campaign_term_write_failure c2S false false 1 8 7 (by decide) (by decide)⟩
